import Mathlib

/-!
Shallow embedding of the APK-converter core (ProjectAnalyzer and ApkBuilder,
second revisions in the repository) together with theorems settling the frozen
claims.  The filesystem is modelled as an explicit record: `files` is the
relative path list produced by the recursive walker, `contents` maps relative
paths to file data, `dirs` is the set of directories that exist.  `JSON.parse`
(a platform builtin, not repository code) is abstracted as a parameter
returning the dependency-name list or `none` on parse failure.
-/

namespace AppCore

/-- Scan for `pat` as a contiguous sublist. -/
def includesAux (pat : List Char) : List Char → Bool
  | [] => pat.isEmpty
  | c :: rest => List.isPrefixOf pat (c :: rest) || includesAux pat rest

/-- JS `String.prototype.includes`: substring containment. -/
def includes (s pat : String) : Bool :=
  includesAux pat.toList s.toList

/-- JS `String.prototype.endsWith`. -/
def strEndsWith (s pat : String) : Bool :=
  List.isPrefixOf pat.toList.reverse s.toList.reverse

/-- JS `String.prototype.startsWith`. -/
def strStartsWith (s pat : String) : Bool :=
  List.isPrefixOf pat.toList s.toList

/-- `String.prototype.substring`-style drop of the first `n` characters. -/
def strDrop (s : String) (n : Nat) : String :=
  String.mk (s.toList.drop n)

/-- `String.prototype.split` on a single separator character. -/
def splitOnChar (c : Char) : List Char → List (List Char)
  | [] => [[]]
  | x :: rest =>
    match splitOnChar c rest with
    | [] => [[]]
    | h :: t => if x = c then [] :: h :: t else (x :: h) :: t

/-- String-level split on a separator character. -/
def splitOnCharStr (c : Char) (s : String) : List String :=
  (splitOnChar c s.toList).map (fun l => String.mk l)

/-- `Array.prototype.join` with a separator. -/
def joinWith (sep : String) : List String → String
  | [] => ""
  | [x] => x
  | x :: y :: xs => x ++ sep ++ joinWith sep (y :: xs)

/-- ASCII lower-casing of one character (`String.prototype.toLowerCase`
restricted to the range the callers keep afterwards). -/
def toLowerCh (c : Char) : Char :=
  if 'A' ≤ c && c ≤ 'Z' then Char.ofNat (c.toNat + 32) else c

/-- JS falsy-or for numbers: `v || d` where `0` and `undefined` are falsy. -/
def orDefault (v : Option Nat) (d : Nat) : Nat :=
  match v with
  | some n => if n = 0 then d else n
  | none => d

/-- JS falsy-or for strings: `v || d` where `""` and `undefined` are falsy. -/
def orDefaultStr (v : Option String) (d : String) : String :=
  match v with
  | some s => if s = "" then d else s
  | none => d

/-- Characters matched by the regex class `\s`. -/
def isWs (c : Char) : Bool :=
  c = ' ' || c = '\t' || c = '\n' || c = '\r' || c = '\x0b' || c = '\x0c'

/-- Characters matched by the regex class `\d`. -/
def isDigitCh (c : Char) : Bool :=
  '0' ≤ c && c ≤ '9'

/-- `parseInt` on a non-empty digit string. -/
def digitsToNat (ds : List Char) : Nat :=
  ds.foldl (fun n c => 10 * n + (c.toNat - 48)) 0

/-- Try to match `key\s+(\d+)` at the head of `l`, returning the captured
integer. -/
def matchKeyNumAt (key l : List Char) : Option Nat :=
  if List.isPrefixOf key l then
    let after := l.drop key.length
    let ws := after.takeWhile isWs
    if ws.isEmpty then none
    else
      let ds := (after.drop ws.length).takeWhile isDigitCh
      if ds.isEmpty then none else some (digitsToNat ds)
  else none

/-- Leftmost match of `key\s+(\d+)` over the character list. -/
def matchKeyNum (key : List Char) : List Char → Option Nat
  | [] => none
  | c :: rest =>
    match matchKeyNumAt key (c :: rest) with
    | some n => some n
    | none => matchKeyNum key rest

/-- `ProjectAnalyzer.extractGradleValue`: first integer following the key
token (regex `key\s+(\d+)`), `undefined` when absent. -/
def extractGradleValue (content key : String) : Option Nat :=
  matchKeyNum key.toList content.toList

/-- Try to match `token\s*(.+)` at the head of `l`: skip whitespace after the
token greedily, then capture at least one non-newline character. -/
def matchTokenLineAt (token l : List Char) : Option (List Char) :=
  if List.isPrefixOf token l then
    let after := l.drop token.length
    let ws := after.takeWhile isWs
    let cap := (after.drop ws.length).takeWhile (fun c => c ≠ '\n' && c ≠ '\r')
    if cap.isEmpty then none else some cap
  else none

/-- Leftmost match of `token\s*(.+)`, as used by the pubspec field regexes.
(Back-tracking of the regex engine over trailing whitespace is not relevant
for any claim and is not modelled.) -/
def matchTokenLine (token : List Char) : List Char → Option (List Char)
  | [] => none
  | c :: rest =>
    match matchTokenLineAt token (c :: rest) with
    | some r => some r
    | none => matchTokenLine token rest

/-- `/token\s*(.+)/` over a string, capture trimmed by the callers. -/
def matchLineAfter (content token : String) : Option String :=
  (matchTokenLine token.toList content.toList).map (fun l => String.mk l)

/-- Try to find the shortest run of non-newline characters delimited by
`close`, as `(.*?)` capture of the cordova config regexes. -/
def captureUpTo (close : List Char) : List Char → Option (List Char)
  | [] => none
  | c :: rest =>
    if List.isPrefixOf close (c :: rest) then some []
    else if c = '\n' || c = '\r' then none
    else (captureUpTo close rest).map (fun l => c :: l)

/-- Leftmost match of `open(.*?)close` over the character list. -/
def findBetweenList (opPat clPat : List Char) : List Char → Option (List Char)
  | [] => none
  | c :: rest =>
    if List.isPrefixOf opPat (c :: rest) then
      match captureUpTo clPat ((c :: rest).drop opPat.length) with
      | some cap => some cap
      | none => findBetweenList opPat clPat rest
    else findBetweenList opPat clPat rest

/-- Regexes of the form `/open(.*?)close/` (cordova `<name>`/`version="`). -/
def findBetween (content opPat clPat : String) : Option String :=
  (findBetweenList opPat.toList clPat.toList content.toList).map
    (fun l => String.mk l)

/-- One line of the pubspec dependencies block: `\s+\S+:.*` — leading
whitespace then a token terminated by a colon. -/
def depLineName (line : String) : Option String :=
  let cs := line.toList
  let ws := cs.takeWhile isWs
  if ws.isEmpty then none
  else
    let tok := (cs.drop ws.length).takeWhile (fun c => !isWs c)
    if tok.isEmpty then none
    else if tok.getLast? = some ':' then some (String.mk (tok.dropLast))
    else if (String.mk tok).toList.contains ':' then
      some (String.mk (tok.takeWhile (fun c => c ≠ ':')))
    else none

/-- The pubspec `dependencies:` block: names of the indented `key:` lines
following the `dependencies:` line. -/
def pubspecDeps (content : String) : Option (List String) :=
  let lines := splitOnCharStr '\n' content
  match lines.findIdx? (fun l => strStartsWith l "dependencies:") with
  | none => none
  | some i =>
    let after := lines.drop (i + 1)
    let block := after.takeWhile (fun l => (depLineName l).isSome)
    some (block.filterMap depLineName)

/-- `name.toLowerCase().replace(/[^a-z0-9]/g, '')`. -/
def sanitizeName (s : String) : String :=
  String.mk ((s.toList.map toLowerCh).filter
    (fun c => ('a' ≤ c && c ≤ 'z') || ('0' ≤ c && c ≤ '9')))

/-- JS `String.prototype.trim`. -/
def jsTrim (s : String) : String :=
  String.mk ((s.toList.dropWhile isWs).reverse.dropWhile isWs).reverse

/- ## Filesystem model -/

/-- Data of one ZIP entry: text content or an opaque binary buffer of a given
byte size (the synthetic DEX/ARSC/RSA/icon segments carry no text). -/
inductive EntryData
  | text (s : String)
  | bin (size : Nat)
deriving DecidableEq, Repr

/-- Data stored at a path: a plain file or a written ZIP archive. -/
inductive FileData
  | plain (d : EntryData)
  | archive (entries : List (String × EntryData))
deriving DecidableEq, Repr

/-- Byte size of one archive entry (text modelled as one byte per char). -/
def entrySize : EntryData → Nat
  | .text s => s.length
  | .bin n => n

/-- Byte size of a file on disk. -/
def fileSize : FileData → Nat
  | .plain d => entrySize d
  | .archive es => (es.map (fun e => entrySize e.2)).sum

/-- A project directory: walker output (relative file paths), contents keyed
by relative path (later writes shadow earlier entries), and existing
directories. -/
structure ProjectDir where
  files : List String
  contents : List (String × FileData)
  dirs : List String
deriving DecidableEq, Repr

/-- Content lookup at a relative path. -/
def lookupContent (d : ProjectDir) (p : String) : Option FileData :=
  (d.contents.find? (fun e => e.1 = p)).map (fun e => e.2)

/-- `FileManager.fileExists` on a path joined under the project root. -/
def fileExists (d : ProjectDir) (p : String) : Bool :=
  (lookupContent d p).isSome || d.dirs.contains p

/-- `FileManager.readFile`: text content, `none` when the read throws. -/
def readFile (d : ProjectDir) (p : String) : Option String :=
  match lookupContent d p with
  | some (.plain (.text s)) => some s
  | _ => none

/-- `FileManager.ensureDirectory`. -/
def ensureDirectory (d : ProjectDir) (p : String) : ProjectDir :=
  { d with dirs := d.dirs ++ [p] }

/-- `FileManager.writeFile`: writing also makes the file visible to the next
walker run. -/
def writeFile (d : ProjectDir) (p : String) (c : FileData) : ProjectDir :=
  { d with contents := (p, c) :: d.contents, files := d.files ++ [p] }

/-- `path.dirname` of the path joined under the project root, expressed
relative to the root (`""` denotes the root itself). -/
def dirnameRel (e : String) : String :=
  let parts := splitOnCharStr '/' e
  if parts.length ≤ 1 then "" else joinWith "/" parts.dropLast

/-- `FileManager.listFiles` of a directory given the walker view: names of
files directly under it. -/
def listFilesUnder (d : ProjectDir) (dir : String) : List String :=
  d.files.filterMap (fun f =>
    if strStartsWith f (dir ++ "/") then
      let rest := strDrop f (dir.length + 1)
      if rest.toList.contains '/' then none else some rest
    else none)

/- ## Analyzer data model -/

/-- Result triple of `ProjectAnalyzer.detectFramework`. -/
structure Detection where
  framework : String
  language : String
  projectType : String
deriving DecidableEq, Repr

/-- The loosely-typed `buildConfig` bag: absent keys are `none`. -/
structure BuildConfig where
  hasPackageJson : Option Bool := none
  hasPubspec : Option Bool := none
  hasBuildGradle : Option Bool := none
  hasConfigXml : Option Bool := none
  hasManifest : Option Bool := none
  hasWwwFolder : Option Bool := none
  hasAssets : Option Bool := none
  targetSdk : Option Nat := none
  minSdk : Option Nat := none
  packageName : Option String := none
  appName : Option String := none
  version : Option String := none
  description : Option String := none
deriving DecidableEq, Repr

/-- `projectStats` of a `ProjectAnalysis`. -/
structure ProjectStats where
  totalFiles : Nat := 0
  sourceFiles : Nat := 0
  dependencies : Nat := 0
  targetSdk : Option Nat := none
  minSdk : Option Nat := none
  buildTools : Option String := none
deriving DecidableEq, Repr

/-- The `ProjectAnalysis` record. -/
structure ProjectAnalysis where
  framework : String
  language : String
  projectType : String
  hasValidStructure : Bool
  missingFiles : List String
  dependencies : List String
  buildConfig : BuildConfig
  projectStats : ProjectStats
  errors : List String
deriving DecidableEq, Repr

/-- React-native marker predicate used inside `detectFramework`. -/
def rnMarker (f : String) : Bool :=
  includes f "react-native" || includes f "metro.config"

/-- Android source language inference inside `detectFramework`. -/
def detectLanguageAndroid (files : List String) : String :=
  if files.any (fun f => strEndsWith f ".kt") then "kotlin"
  else if files.any (fun f => strEndsWith f ".java") then "java"
  else "unknown"

/-- Rules 2–5 of `ProjectAnalyzer.detectFramework`, reached when the
react-native rule did not fire. -/
def detectFrameworkRest (files : List String) : Detection :=
  if files.any (fun f => includes f "pubspec.yaml") then
    ⟨"flutter", "dart", "hybrid"⟩
  else if files.any (fun f =>
      includes f "build.gradle" || includes f "AndroidManifest.xml") then
    ⟨"android", detectLanguageAndroid files, "native"⟩
  else if files.any (fun f => includes f "config.xml" && includes f "www") then
    ⟨"cordova", "javascript", "hybrid"⟩
  else ⟨"unknown", "unknown", "unknown"⟩

/-- `ProjectAnalyzer.detectFramework`: the react-native rule fires only when a
package descriptor and a marker are both present; otherwise control falls
through to the later rules. -/
def detectFramework (files : List String) : Detection :=
  if files.any (fun f => includes f "package.json") && files.any rnMarker then
    ⟨"react-native", "javascript", "hybrid"⟩
  else detectFrameworkRest files

/-- `ProjectAnalyzer.analyzeReactNative` (`jd` abstracts `JSON.parse` followed
by `Object.keys(pkg.dependencies || ...)`, `none` meaning the parse threw). -/
def analyzeReactNative (jd : String → Option (List String)) (d : ProjectDir)
    (files : List String) (a : ProjectAnalysis) : ProjectAnalysis :=
  let a := { a with buildConfig :=
    { hasPackageJson := some false, hasBuildGradle := some false,
      targetSdk := some 33, minSdk := some 21 } }
  let requiredFiles :=
    ["package.json", "android/build.gradle", "android/app/build.gradle"]
  let a := { a with missingFiles :=
    requiredFiles.filter (fun file => !(files.any (fun f => includes f file))) }
  let a :=
    if fileExists d "package.json" then
      let a := { a with buildConfig.hasPackageJson := some true }
      match readFile d "package.json" with
      | some content =>
        match jd content with
        | some deps =>
          { a with dependencies := deps,
                   projectStats.dependencies := deps.length }
        | none =>
          { a with errors := a.errors ++ ["Failed to parse package.json"] }
      | none =>
        { a with errors := a.errors ++ ["Failed to parse package.json"] }
    else a
  let a :=
    if fileExists d "android/app/build.gradle" then
      let a := { a with buildConfig.hasBuildGradle := some true }
      match readFile d "android/app/build.gradle" with
      | some g =>
        let targetSdk := extractGradleValue g "targetSdkVersion"
        let minSdk := extractGradleValue g "minSdkVersion"
        let a := { a with
          projectStats.targetSdk := some (orDefault targetSdk 33),
          projectStats.minSdk := some (orDefault minSdk 21) }
        { a with buildConfig.targetSdk := a.projectStats.targetSdk,
                 buildConfig.minSdk := a.projectStats.minSdk }
      | none =>
        { a with errors := a.errors ++ ["Failed to parse Android build.gradle"] }
    else a
  { a with projectStats.sourceFiles := (files.filter (fun f =>
      strEndsWith f ".js" || strEndsWith f ".jsx" || strEndsWith f ".ts" ||
      strEndsWith f ".tsx")).length }

/-- `ProjectAnalyzer.analyzeFlutter`. -/
def analyzeFlutter (d : ProjectDir) (files : List String)
    (a : ProjectAnalysis) : ProjectAnalysis :=
  let a := { a with buildConfig :=
    { hasPubspec := some false, hasBuildGradle := some false,
      targetSdk := some 33, minSdk := some 21 } }
  let requiredFiles := ["pubspec.yaml", "android/build.gradle", "lib/main.dart"]
  let a := { a with missingFiles :=
    requiredFiles.filter (fun file => !(files.any (fun f => includes f file))) }
  let a :=
    if fileExists d "pubspec.yaml" then
      let a := { a with buildConfig.hasPubspec := some true }
      match readFile d "pubspec.yaml" with
      | some content =>
        let a := match matchLineAfter content "name:" with
          | some nm =>
            { a with buildConfig.appName := some (jsTrim nm),
                     buildConfig.packageName :=
                       some ("com.flutter." ++ sanitizeName (jsTrim nm)) }
          | none => a
        let a := match matchLineAfter content "version:" with
          | some v => { a with buildConfig.version := some (jsTrim v) }
          | none => a
        let a := match matchLineAfter content "description:" with
          | some v => { a with buildConfig.description := some (jsTrim v) }
          | none => a
        let a := match pubspecDeps content with
          | some deps =>
            { a with dependencies := deps,
                     projectStats.dependencies := deps.length }
          | none => a
        if includes content "assets:" then
          { a with buildConfig.hasAssets := some true }
        else a
      | none =>
        { a with errors := a.errors ++ ["Failed to parse pubspec.yaml"] }
    else a
  let a :=
    if fileExists d "android/app/build.gradle" then
      { a with buildConfig.hasBuildGradle := some true }
    else a
  { a with projectStats.sourceFiles :=
      (files.filter (fun f => strEndsWith f ".dart")).length }

/-- `ProjectAnalyzer.analyzeAndroid`. -/
def analyzeAndroid (d : ProjectDir) (files : List String)
    (a : ProjectAnalysis) : ProjectAnalysis :=
  let a := { a with buildConfig :=
    { hasBuildGradle := some false, hasManifest := some false,
      targetSdk := some 33, minSdk := some 21 } }
  let requiredFiles :=
    ["build.gradle", "app/build.gradle", "app/src/main/AndroidManifest.xml"]
  let a := { a with missingFiles :=
    requiredFiles.filter (fun file => !(files.any (fun f => includes f file))) }
  let a :=
    if fileExists d "app/build.gradle" then
      let a := { a with buildConfig.hasBuildGradle := some true }
      match readFile d "app/build.gradle" with
      | some g =>
        let targetSdk := extractGradleValue g "targetSdkVersion"
        let minSdk := extractGradleValue g "minSdkVersion"
        let a := { a with
          projectStats.targetSdk := some (orDefault targetSdk 33),
          projectStats.minSdk := some (orDefault minSdk 21) }
        { a with buildConfig.targetSdk := a.projectStats.targetSdk,
                 buildConfig.minSdk := a.projectStats.minSdk }
      | none =>
        { a with errors := a.errors ++ ["Failed to parse build.gradle"] }
    else a
  let a :=
    if fileExists d "app/src/main/AndroidManifest.xml" then
      { a with buildConfig.hasManifest := some true }
    else a
  { a with projectStats.sourceFiles := (files.filter (fun f =>
      strEndsWith f ".java" || strEndsWith f ".kt")).length }

/-- `ProjectAnalyzer.analyzeCordova`. -/
def analyzeCordova (d : ProjectDir) (files : List String)
    (a : ProjectAnalysis) : ProjectAnalysis :=
  let a := { a with buildConfig :=
    { hasConfigXml := some false, hasWwwFolder := some false,
      appName := some "Mobile App", version := some "1.0.0" } }
  let requiredFiles := ["config.xml", "www/index.html"]
  let a := { a with missingFiles :=
    requiredFiles.filter (fun file => !(files.any (fun f => includes f file))) }
  let a :=
    if fileExists d "config.xml" then
      let a := { a with buildConfig.hasConfigXml := some true }
      match readFile d "config.xml" with
      | some content =>
        let nameMatch := findBetween content "<name>" "</name>"
        let versionMatch := findBetween content "version=\"" "\""
        { a with
          buildConfig.appName := some (match nameMatch with
            | some n => n | none => "Mobile App"),
          buildConfig.version := some (match versionMatch with
            | some v => v | none => "1.0.0") }
      | none =>
        { a with errors := a.errors ++ ["Failed to parse config.xml"] }
    else a
  let a :=
    if fileExists d "www" then
      { a with buildConfig.hasWwwFolder := some true }
    else a
  { a with projectStats.sourceFiles := (files.filter (fun f =>
      strEndsWith f ".js" || strEndsWith f ".html" || strEndsWith f ".css")).length }

/-- `ProjectAnalyzer.analyzeProject`: walk (the walker output is the `files`
field of the directory model), classify, dispatch, normalize `unknown` to
`generic-mobile`, and derive `hasValidStructure` from the error list. -/
def analyzeProject (jd : String → Option (List String)) (d : ProjectDir) :
    ProjectAnalysis :=
  let analysis : ProjectAnalysis :=
    { framework := "unknown", language := "unknown", projectType := "unknown",
      hasValidStructure := false, missingFiles := [], dependencies := [],
      buildConfig := {}, projectStats := {}, errors := [] }
  let allFiles := d.files
  let analysis := { analysis with projectStats.totalFiles := allFiles.length }
  let det := detectFramework allFiles
  let analysis :=
    { analysis with
      framework := det.framework
      language := det.language
      projectType := det.projectType }
  let analysis :=
    if det.framework = "react-native" then
      analyzeReactNative jd d allFiles analysis
    else if det.framework = "flutter" then analyzeFlutter d allFiles analysis
    else if det.framework = "android" then analyzeAndroid d allFiles analysis
    else if det.framework = "cordova" then analyzeCordova d allFiles analysis
    else
      { analysis with
        framework := "generic-mobile"
        errors := analysis.errors ++
          ["Framework not automatically detected - will use generic mobile project setup"] }
  { analysis with hasValidStructure := analysis.errors.isEmpty }

/- ## ApkBuilder: scaffolding synthesizer -/

/-- Template written by `ApkBuilder.createAndroidManifest`. -/
def androidManifestTemplate : String :=
  "<?xml version=\"1.0\" encoding=\"utf-8\"?>
<manifest xmlns:android=\"http://schemas.android.com/apk/res/android\"
    package=\"com.example.app\">

    <uses-permission android:name=\"android.permission.INTERNET\" />
    <uses-permission android:name=\"android.permission.ACCESS_NETWORK_STATE\" />

    <application
        android:allowBackup=\"true\"
        android:icon=\"@mipmap/ic_launcher\"
        android:label=\"@string/app_name\"
        android:theme=\"@style/AppTheme\">

        <activity
            android:name=\".MainActivity\"
            android:exported=\"true\">
            <intent-filter>
                <action android:name=\"android.intent.action.MAIN\" />
                <category android:name=\"android.intent.category.LAUNCHER\" />
            </intent-filter>
        </activity>
    </application>
</manifest>"

/-- App-level gradle template of `ApkBuilder.createBuildGradle`. -/
def appGradleTemplate (a : ProjectAnalysis) : String :=
  "android \x7b
    compileSdkVersion " ++ toString (orDefault a.projectStats.targetSdk 33) ++ "

    defaultConfig \x7b
        applicationId \"com.example.app\"
        minSdkVersion " ++ toString (orDefault a.projectStats.minSdk 21) ++ "
        targetSdkVersion " ++ toString (orDefault a.projectStats.targetSdk 33) ++ "
        versionCode 1
        versionName \"1.0\"
    \x7d

    buildTypes \x7b
        release \x7b
            minifyEnabled false
            proguardFiles getDefaultProguardFile(\x27proguard-android-optimize.txt\x27), \x27proguard-rules.pro\x27
        \x7d
    \x7d
\x7d

dependencies \x7b
    implementation \x27androidx.appcompat:appcompat:1.6.1\x27
    implementation \x27com.google.android.material:material:1.9.0\x27
    implementation \x27androidx.constraintlayout:constraintlayout:2.1.4\x27
\x7d"

/-- Project-level gradle template of `ApkBuilder.createBuildGradle`. -/
def projectGradleTemplate : String :=
  "buildscript \x7b
    repositories \x7b
        google()
        mavenCentral()
    \x7d
    dependencies \x7b
        classpath \x27com.android.tools.build:gradle:7.4.2\x27
    \x7d
\x7d

allprojects \x7b
    repositories \x7b
        google()
        mavenCentral()
    \x7d
\x7d"

/-- `JSON.stringify(packageJson, null, 2)` of `ApkBuilder.createPackageJson`. -/
def packageJsonTemplate : String :=
  "\x7b
  \"name\": \"mobile-app\",
  \"version\": \"1.0.0\",
  \"main\": \"index.js\",
  \"scripts\": \x7b
    \"android\": \"react-native run-android\",
    \"ios\": \"react-native run-ios\",
    \"start\": \"react-native start\"
  \x7d,
  \"dependencies\": \x7b
    \"react\": \"18.2.0\",
    \"react-native\": \"0.72.0\"
  \x7d
\x7d"

/-- Template written by `ApkBuilder.createConfigXml`. -/
def configXmlTemplate : String :=
  "<?xml version=\x271.0\x27 encoding=\x27utf-8\x27?>
<widget id=\"com.example.app\" version=\"1.0.0\" xmlns=\"http://www.w3.org/ns/widgets\" xmlns:cdv=\"http://cordova.apache.org/ns/1.0\">
    <name>Mobile App</name>
    <description>
        A sample Apache Cordova application.
    </description>
    <content src=\"index.html\" />
    <access origin=\"*\" />
    <allow-intent href=\"http://*/*\" />
    <allow-intent href=\"https://*/*\" />
    <platform name=\"android\">
        <allow-intent href=\"market:*\" />
    </platform>
</widget>"

/-- `ApkBuilder.createAndroidManifest`. -/
def createAndroidManifest (d : ProjectDir) (filePath : String)
    (_a : ProjectAnalysis) : ProjectDir :=
  writeFile d filePath (.plain (.text androidManifestTemplate))

/-- `ApkBuilder.createBuildGradle`: branches on app-level vs project-level. -/
def createBuildGradle (d : ProjectDir) (filePath : String)
    (a : ProjectAnalysis) : ProjectDir :=
  if includes filePath "app/build.gradle" then
    writeFile d filePath (.plain (.text (appGradleTemplate a)))
  else
    writeFile d filePath (.plain (.text projectGradleTemplate))

/-- `ApkBuilder.createPackageJson`. -/
def createPackageJson (d : ProjectDir) (filePath : String)
    (_a : ProjectAnalysis) : ProjectDir :=
  writeFile d filePath (.plain (.text packageJsonTemplate))

/-- `ApkBuilder.createConfigXml`. -/
def createConfigXml (d : ProjectDir) (filePath : String)
    (_a : ProjectAnalysis) : ProjectDir :=
  writeFile d filePath (.plain (.text configXmlTemplate))

/-- An entry matches one of the four synthesizer templates. -/
def hasTemplate (e : String) : Bool :=
  includes e "AndroidManifest.xml" || includes e "build.gradle" ||
  includes e "package.json" || includes e "config.xml"

/-- Template dispatch chain inside `ApkBuilder.createMissingFiles`. -/
def writeTemplateFile (d : ProjectDir) (e : String)
    (a : ProjectAnalysis) : ProjectDir :=
  if includes e "AndroidManifest.xml" then createAndroidManifest d e a
  else if includes e "build.gradle" then createBuildGradle d e a
  else if includes e "package.json" then createPackageJson d e a
  else if includes e "config.xml" then createConfigXml d e a
  else d

/-- `ApkBuilder.createMissingFiles`: for each missing entry, ensure the parent
directory, then write a template only when the filename matches one of the
four known kinds.  `writeFails` injects a thrown write error. -/
def createMissingFiles (writeFails : Bool) (a : ProjectAnalysis) :
    ProjectDir → List String → Except (String × ProjectDir) ProjectDir
  | d, [] => .ok d
  | d, e :: rest =>
    let d := ensureDirectory d (dirnameRel e)
    if hasTemplate e then
      if writeFails then .error ("write error", d)
      else createMissingFiles writeFails a (writeTemplateFile d e a) rest
    else createMissingFiles writeFails a d rest

/-- The fault-free run of `createMissingFiles` as a pure directory update. -/
def createMissingFilesOk (a : ProjectAnalysis) (d : ProjectDir)
    (es : List String) : ProjectDir :=
  match createMissingFiles false a d es with
  | .ok d2 => d2
  | .error p => p.2

/-- Structural form of the fault-free `createMissingFiles` loop (proved equal
to `createMissingFilesOk` below). -/
def cmfRun (a : ProjectAnalysis) : ProjectDir → List String → ProjectDir
  | d, [] => d
  | d, e :: rest =>
    let d := ensureDirectory d (dirnameRel e)
    if hasTemplate e then cmfRun a (writeTemplateFile d e a) rest
    else cmfRun a d rest

/- ## ApkBuilder: validators -/

/-- `ApkBuilder.validateBuildRequirements`: framework-specific presence-flag
checks (JS falsy test, so an absent flag also fails). -/
def validateBuildRequirements (a : ProjectAnalysis) : List String :=
  if a.framework = "react-native" then
    if a.buildConfig.hasPackageJson = some true then []
    else ["React Native project missing package.json"]
  else if a.framework = "flutter" then
    if a.buildConfig.hasPubspec = some true then []
    else ["Flutter project missing pubspec.yaml"]
  else if a.framework = "android" then
    if a.buildConfig.hasBuildGradle = some true then []
    else ["Android project missing build.gradle"]
  else if a.framework = "cordova" then
    if a.buildConfig.hasConfigXml = some true then []
    else ["Cordova project missing config.xml"]
  else if a.framework = "generic-mobile" then []
  else ["Unsupported framework: " ++ a.framework]

/-- `ApkBuilder.getEssentialFiles`. -/
def getEssentialFiles (framework : String) : List String :=
  if framework = "react-native" then ["package.json", "index.js"]
  else if framework = "flutter" then ["pubspec.yaml", "lib/main.dart"]
  else if framework = "android" then
    ["build.gradle", "src/main/AndroidManifest.xml"]
  else if framework = "cordova" then ["config.xml", "www/index.html"]
  else []

/-- `ApkBuilder.validateProjectStructure`. -/
def validateProjectStructure (d : ProjectDir) (a : ProjectAnalysis) : Bool :=
  (getEssentialFiles a.framework).all (fun f => fileExists d f)

/- ## ApkBuilder: artifact assembler -/

/-- `ApkBuilder.generateAndroidManifest` template segments (text around the
five substituted fields, in substitution order). -/
def apkManifestPart1 : String :=
  "<?xml version=\"1.0\" encoding=\"utf-8\"?>
<manifest xmlns:android=\"http://schemas.android.com/apk/res/android\"
    package=\""

def apkManifestPart2 : String :=
  "\"
    android:versionCode=\"1\"
    android:versionName=\""

def apkManifestPart3 : String :=
  "\">

    <uses-sdk android:minSdkVersion=\""

def apkManifestPart4 : String :=
  "\"
              android:targetSdkVersion=\""

def apkManifestPart5 : String :=
  "\" />

    <uses-permission android:name=\"android.permission.INTERNET\" />
    <uses-permission android:name=\"android.permission.ACCESS_NETWORK_STATE\" />
    <uses-permission android:name=\"android.permission.WRITE_EXTERNAL_STORAGE\" />

    <application
        android:allowBackup=\"true\"
        android:icon=\"@mipmap/ic_launcher\"
        android:label=\""

def apkManifestPart6 : String :=
  "\"
        android:theme=\"@style/AppTheme\">

        <activity
            android:name=\".MainActivity\"
            android:exported=\"true\"
            android:launchMode=\"singleTop\"
            android:theme=\"@style/LaunchTheme\">
            <intent-filter>
                <action android:name=\"android.intent.action.MAIN\" />
                <category android:name=\"android.intent.category.LAUNCHER\" />
            </intent-filter>
        </activity>
    </application>
</manifest>"

/-- `ApkBuilder.generateAndroidManifest`: substitutes `buildConfig` fields
with the documented defaults (JS falsy-or). -/
def generateAndroidManifest (a : ProjectAnalysis) : String :=
  let packageName :=
    orDefaultStr a.buildConfig.packageName ("com." ++ a.framework ++ ".app")
  let appName := orDefaultStr a.buildConfig.appName "Mobile App"
  let versionName := orDefaultStr a.buildConfig.version "1.0.0"
  apkManifestPart1 ++ packageName ++ apkManifestPart2 ++ versionName ++
    apkManifestPart3 ++ toString (orDefault a.buildConfig.minSdk 21) ++
    apkManifestPart4 ++ toString (orDefault a.buildConfig.targetSdk 33) ++
    apkManifestPart5 ++ appName ++ apkManifestPart6

/-- `ApkBuilder.generateClassesDex`: an 8 KiB synthetic buffer. -/
def generateClassesDex : EntryData := .bin 8192

/-- `ApkBuilder.generateResourcesArsc`: a 4 KiB synthetic buffer. -/
def generateResourcesArsc : EntryData := .bin 4096

/-- Signing-manifest text of `ApkBuilder.generateMetaInf` (`now` abstracts
`new Date().toISOString()`). -/
def metaInfManifest (now : String) : String :=
  "Manifest-Version: 1.0
Created-By: Mobile APK Converter
Built-Date: " ++ now ++ "

Name: AndroidManifest.xml
SHA1-Digest: abcdef1234567890abcdef1234567890abcdef12

Name: classes.dex
SHA1-Digest: 1234567890abcdef1234567890abcdef12345678

Name: resources.arsc
SHA1-Digest: 567890abcdef1234567890abcdef1234567890ab
"

/-- Signature-file stub of `ApkBuilder.generateMetaInf`. -/
def metaInfCert : String :=
  "Signature-Version: 1.0
Created-By: Mobile APK Converter
SHA1-Digest-Manifest: fedcba0987654321fedcba0987654321fedcba09
SHA1-Digest-Manifest-Main-Attributes: 0987654321fedcba0987654321fedcba09876543
"

/-- 256-byte placeholder RSA blob of `ApkBuilder.generateMetaInf`. -/
def generateMetaInfRsa : EntryData := .bin 256

/-- `ApkBuilder.generateAppIcon`: 67-byte minimal PNG (8-byte signature,
25-byte IHDR, 22-byte IDAT, 12-byte IEND). -/
def generateAppIcon : EntryData := .bin 67

/-- `ApkBuilder.addFlutterAssets`: up to the first 10 files of the `assets`
directory. -/
def addFlutterAssets (d : ProjectDir) : List (String × EntryData) :=
  if fileExists d "assets" then
    ((listFilesUnder d "assets").take 10).filterMap (fun assetFile =>
      match readFile d ("assets/" ++ assetFile) with
      | some content =>
        some ("assets/flutter_assets/" ++ assetFile, EntryData.text content)
      | none => none)
  else []

/-- `ApkBuilder.addReactNativeAssets`. -/
def addReactNativeAssets (d : ProjectDir) : List (String × EntryData) :=
  if fileExists d "index.js" then
    match readFile d "index.js" with
    | some content => [("assets/index.android.bundle", EntryData.text content)]
    | none => []
  else []

/-- `ApkBuilder.addCordovaAssets`. -/
def addCordovaAssets (d : ProjectDir) : List (String × EntryData) :=
  if fileExists d "www" then
    match readFile d "www/index.html" with
    | some content => [("assets/www/index.html", EntryData.text content)]
    | none => []
  else []

/-- `ApkBuilder.addGenericAssets`. -/
def addGenericAssets (d : ProjectDir) : List (String × EntryData) :=
  ["index.html", "app.js", "main.js", "package.json"].filterMap (fun asset =>
    if fileExists d asset then
      match readFile d asset with
      | some content => some ("assets/" ++ asset, EntryData.text content)
      | none => none
    else none)

/-- `ApkBuilder.addFrameworkAssets`: switch on framework; a thrown error
inside is caught and the build continues without assets. -/
def addFrameworkAssets (assetFails : Bool) (d : ProjectDir)
    (a : ProjectAnalysis) : List (String × EntryData) :=
  if assetFails then []
  else if a.framework = "flutter" then addFlutterAssets d
  else if a.framework = "react-native" then addReactNativeAssets d
  else if a.framework = "cordova" then addCordovaAssets d
  else addGenericAssets d

/-- Entries of the main (non-fallback) APK archive, in `addFile` order. -/
def mainApkEntries (assetFails : Bool) (now : String) (d : ProjectDir)
    (a : ProjectAnalysis) : List (String × EntryData) :=
  [("AndroidManifest.xml", EntryData.text (generateAndroidManifest a)),
   ("classes.dex", generateClassesDex),
   ("resources.arsc", generateResourcesArsc),
   ("META-INF/MANIFEST.MF", EntryData.text (metaInfManifest now)),
   ("META-INF/CERT.SF", EntryData.text metaInfCert),
   ("META-INF/CERT.RSA", generateMetaInfRsa)]
  ++ addFrameworkAssets assetFails d a
  ++ [("res/mipmap-mdpi/ic_launcher.png", generateAppIcon),
      ("res/mipmap-hdpi/ic_launcher.png", generateAppIcon),
      ("res/mipmap-xhdpi/ic_launcher.png", generateAppIcon)]

/-- The fixed candidate list of `ApkBuilder.createBasicApkFallback`. -/
def fallbackCandidates : List String :=
  ["package.json", "index.html", "app.js", "main.dart", "pubspec.yaml"]

/-- Entries of the minimal fallback archive: whichever candidates exist at
the project root. -/
def fallbackEntries (d : ProjectDir) : List (String × EntryData) :=
  fallbackCandidates.filterMap (fun file =>
    if fileExists d file then
      match readFile d file with
      | some content => some (file, EntryData.text content)
      | none => none
    else none)

/-- `ApkBuilder.createBasicApkFallback`. -/
def createBasicApkFallback (d : ProjectDir) (apkPath : String) : ProjectDir :=
  writeFile d apkPath (.archive (fallbackEntries d))

/-- Fault flags for the build pipeline: `cbThrows` makes a progress-callback
invocation throw, the `Bool`s make one fallible native step throw. -/
structure Faults where
  cbThrows : Nat → String → Bool := fun _ _ => false
  writeFails : Bool := false
  statsFails : Bool := false
  zipFails : Bool := false
  assetFails : Bool := false

/-- `ApkBuilder.packageProjectAsApk`: on any error in ZIP assembly, fall back
to the minimal archive at the same path. -/
def packageProjectAsApk (faults : Faults) (now : String) (d : ProjectDir)
    (a : ProjectAnalysis) (apkPath : String) : ProjectDir :=
  if faults.zipFails then createBasicApkFallback d apkPath
  else writeFile d apkPath (.archive (mainApkEntries faults.assetFails now d a))

/-- The deterministic output path of `ApkBuilder.createRealApk`, relative to
the project root. -/
def apkOutputPath : String := "build/outputs/apk/release/app-release.apk"

/-- `ApkBuilder.createRealApk`. -/
def createRealApk (faults : Faults) (now : String) (d : ProjectDir)
    (a : ProjectAnalysis) : ProjectDir × String :=
  let d := ensureDirectory d "build/outputs/apk/release"
  (packageProjectAsApk faults now d a apkOutputPath, apkOutputPath)

/-- `FileManager.getFileStats(..)?.size`. -/
def getFileStats (d : ProjectDir) (p : String) : Option Nat :=
  (lookupContent d p).map fileSize

/-- `(bytes / (1024*1024)).toFixed(1)`: fixed one-decimal rendering, rounding
modelled half-up (float artifacts are not observable by any claim). -/
def formatMB (bytes : Nat) : String :=
  let tenths := (bytes * 10 + 524288) / 1048576
  toString (tenths / 10) ++ "." ++ toString (tenths % 10)

/-- The `BuildResult` record. -/
structure BuildResult where
  success : Bool
  apkPath : Option String
  apkSize : Option Nat
  errors : List String
  logs : List String
deriving DecidableEq, Repr

/-- Outcome of one `buildApk` invocation: the returned record (`none` when an
exception escapes `buildApk` itself), the final directory state, and the
sequence of progress-callback invocations. -/
structure BuildOutcome where
  result : Option BuildResult
  dir : ProjectDir
  prog : List (Nat × String)
deriving DecidableEq, Repr

/-- The `catch` block of `ApkBuilder.buildApk`: append a single converted
error, signal terminal progress; if that very callback throws, the exception
escapes `buildApk`. -/
def buildCatch (faults : Faults) (msg : String) (r : BuildResult)
    (d : ProjectDir) (prog : List (Nat × String)) : BuildOutcome :=
  let r := { r with errors := r.errors ++ ["Build failed: " ++ msg] }
  let prog := prog ++ [(100, "Build process failed")]
  if faults.cbThrows 100 "Build process failed" then ⟨none, d, prog⟩
  else ⟨some r, d, prog⟩

/-- `ApkBuilder.buildApk` (second revision): validation, scaffolding,
structure validation, packaging, with the top-level try/catch. -/
def buildApk (faults : Faults) (now : String) (d : ProjectDir)
    (a : ProjectAnalysis) : BuildOutcome :=
  let r : BuildResult :=
    { success := false, apkPath := none, apkSize := none,
      errors := [], logs := [] }
  let prog := [((10 : Nat), "Starting APK build process...")]
  if faults.cbThrows 10 "Starting APK build process..." then
    buildCatch faults "callback error" r d prog
  else
    let validationErrors := validateBuildRequirements a
    if validationErrors.isEmpty then
      match createMissingFiles faults.writeFails a d a.missingFiles with
      | .error (msg, d1) => buildCatch faults msg r d1 prog
      | .ok d1 =>
        let prog := prog ++ [(30, "Project setup completed...")]
        if faults.cbThrows 30 "Project setup completed..." then
          buildCatch faults "callback error" r d1 prog
        else if validateProjectStructure d1 a then
          let prog := prog ++ [(70, "Packaging APK file...")]
          if faults.cbThrows 70 "Packaging APK file..." then
            buildCatch faults "callback error" r d1 prog
          else
            let pr := createRealApk faults now d1 a
            if faults.statsFails then
              buildCatch faults "stats error" r pr.1 prog
            else
              let apkSizeBytes := orDefault (getFileStats pr.1 pr.2) 0
              let r := { r with
                success := true
                apkPath := some pr.2
                apkSize := some apkSizeBytes
                logs := r.logs ++
                  ["APK package created successfully",
                   "Framework: " ++ a.framework,
                   "Package size: " ++ formatMB apkSizeBytes ++ " MB",
                   "Files included: " ++
                     toString a.projectStats.totalFiles ++ " files",
                   "Build target: Android API " ++
                     toString (orDefault a.buildConfig.targetSdk 33)] }
              let prog := prog ++ [(100, "APK build completed successfully!")]
              if faults.cbThrows 100 "APK build completed successfully!" then
                buildCatch faults "callback error" r pr.1 prog
              else ⟨some r, pr.1, prog⟩
        else
          let r := { r with errors := r.errors ++
            ["Project structure validation failed after setup"] }
          let prog := prog ++ [(100, "Project setup validation failed")]
          if faults.cbThrows 100 "Project setup validation failed" then
            buildCatch faults "callback error" r d1 prog
          else ⟨some r, d1, prog⟩
    else
      let r := { r with errors := r.errors ++ validationErrors }
      let prog := prog ++
        [(100, "Build validation failed - missing requirements")]
      if faults.cbThrows 100 "Build validation failed - missing requirements" then
        buildCatch faults "callback error" r d prog
      else ⟨some r, d, prog⟩

/-- The per-framework required-file checklists declared by the four analyzer
sub-routines (empty for `generic-mobile`). -/
def requiredFilesFor (framework : String) : List String :=
  if framework = "react-native" then
    ["package.json", "android/build.gradle", "android/app/build.gradle"]
  else if framework = "flutter" then
    ["pubspec.yaml", "android/build.gradle", "lib/main.dart"]
  else if framework = "android" then
    ["build.gradle", "app/build.gradle", "app/src/main/AndroidManifest.xml"]
  else if framework = "cordova" then ["config.xml", "www/index.html"]
  else []

/-- The analysis record as it stands right before the framework dispatch in
`analyzeProject`. -/
def initAnalysis (d : ProjectDir) (fw l pt : String) : ProjectAnalysis :=
  { framework := fw, language := l, projectType := pt,
    hasValidStructure := false, missingFiles := [], dependencies := [],
    buildConfig := {}, projectStats := { totalFiles := d.files.length },
    errors := [] }

/-- Concrete analysis for the C4 witness: react-native with
`hasPackageJson = false`. -/
def c4analysis : ProjectAnalysis :=
  { framework := "react-native", language := "javascript",
    projectType := "hybrid", hasValidStructure := true, missingFiles := [],
    dependencies := [], buildConfig := { hasPackageJson := some false },
    projectStats := {}, errors := [] }

/-- Concrete single-page project used by witnesses. -/
def demoDir : ProjectDir :=
  ⟨["index.html"], [("index.html", .plain (.text "<html>"))], []⟩

/-- Concrete generic-mobile analysis used by witnesses. -/
def genAnalysis : ProjectAnalysis :=
  { framework := "generic-mobile", language := "unknown",
    projectType := "unknown", hasValidStructure := false, missingFiles := [],
    dependencies := [], buildConfig := {},
    projectStats := { totalFiles := 1 },
    errors :=
      ["Framework not automatically detected - will use generic mobile project setup"] }

/-- Concrete flutter project with one checklist entry absent. -/
def flutterDir : ProjectDir :=
  ⟨["pubspec.yaml", "android/build.gradle"],
    [("pubspec.yaml", .plain (.text "name: demo"))], []⟩

/- ## Helper lemmas -/

lemma includesAux_iff_middle (pat : List Char) :
    ∀ l, includesAux pat l = true ↔ pat <:+: l := by
  intro l
  induction l with
  | nil => simp [includesAux, List.isEmpty_iff, List.infix_nil]
  | cons c rest ih =>
    simp only [includesAux, Bool.or_eq_true, List.isPrefixOf_iff_prefix, ih,
      List.infix_cons_iff]

lemma includes_iff_middle (s pat : String) :
    includes s pat = true ↔ pat.data <:+: s.data :=
  includesAux_iff_middle pat.data s.data

lemma includes_refl (s : String) : includes s s = true :=
  (includes_iff_middle s s).mpr (List.infix_refl s.data)

lemma includes_append_left (x y pat : String) (h : includes y pat = true) :
    includes (x ++ y) pat = true := by
  rw [includes_iff_middle] at h ⊢
  rw [String.data_append]
  exact h.trans ⟨x.data, [], by simp⟩

lemma includes_append_right (x y pat : String) (h : includes x pat = true) :
    includes (x ++ y) pat = true := by
  rw [includes_iff_middle] at h ⊢
  rw [String.data_append]
  exact h.trans ⟨[], y.data, by simp⟩

section AnalyzerFieldLemmas

variable (jd : String → Option (List String)) (d : ProjectDir)
variable (files : List String) (a : ProjectAnalysis)

lemma analyzeReactNative_framework :
    (analyzeReactNative jd d files a).framework = a.framework := by
  unfold analyzeReactNative
  repeat' split
  all_goals rfl

lemma analyzeFlutter_framework :
    (analyzeFlutter d files a).framework = a.framework := by
  unfold analyzeFlutter
  repeat' split
  all_goals rfl

lemma analyzeAndroid_framework :
    (analyzeAndroid d files a).framework = a.framework := by
  unfold analyzeAndroid
  repeat' split
  all_goals rfl

lemma analyzeCordova_framework :
    (analyzeCordova d files a).framework = a.framework := by
  unfold analyzeCordova
  repeat' split
  all_goals rfl

lemma analyzeReactNative_missingFiles :
    (analyzeReactNative jd d files a).missingFiles =
      ["package.json", "android/build.gradle",
        "android/app/build.gradle"].filter
        (fun file => !(files.any (fun f => includes f file))) := by
  unfold analyzeReactNative
  repeat' split
  all_goals rfl

lemma analyzeFlutter_missingFiles :
    (analyzeFlutter d files a).missingFiles =
      ["pubspec.yaml", "android/build.gradle", "lib/main.dart"].filter
        (fun file => !(files.any (fun f => includes f file))) := by
  unfold analyzeFlutter
  repeat' split
  all_goals rfl

lemma analyzeAndroid_missingFiles :
    (analyzeAndroid d files a).missingFiles =
      ["build.gradle", "app/build.gradle",
        "app/src/main/AndroidManifest.xml"].filter
        (fun file => !(files.any (fun f => includes f file))) := by
  unfold analyzeAndroid
  repeat' split
  all_goals rfl

lemma analyzeCordova_missingFiles :
    (analyzeCordova d files a).missingFiles =
      ["config.xml", "www/index.html"].filter
        (fun file => !(files.any (fun f => includes f file))) := by
  unfold analyzeCordova
  repeat' split
  all_goals rfl

end AnalyzerFieldLemmas

lemma analyzeProject_eq_rn (jd : String → Option (List String))
    (d : ProjectDir) (l pt : String)
    (hdet : detectFramework d.files = ⟨"react-native", l, pt⟩) :
    analyzeProject jd d =
      { analyzeReactNative jd d d.files (initAnalysis d "react-native" l pt) with
        hasValidStructure :=
          (analyzeReactNative jd d d.files
            (initAnalysis d "react-native" l pt)).errors.isEmpty } := by
  unfold analyzeProject
  dsimp only
  rw [hdet]
  dsimp only
  rw [if_pos rfl]
  rfl

lemma analyzeProject_eq_flutter (jd : String → Option (List String))
    (d : ProjectDir) (l pt : String)
    (hdet : detectFramework d.files = ⟨"flutter", l, pt⟩) :
    analyzeProject jd d =
      { analyzeFlutter d d.files (initAnalysis d "flutter" l pt) with
        hasValidStructure :=
          (analyzeFlutter d d.files
            (initAnalysis d "flutter" l pt)).errors.isEmpty } := by
  unfold analyzeProject
  dsimp only
  rw [hdet]
  dsimp only
  rw [if_neg (by decide), if_pos rfl]
  rfl

lemma analyzeProject_eq_android (jd : String → Option (List String))
    (d : ProjectDir) (l pt : String)
    (hdet : detectFramework d.files = ⟨"android", l, pt⟩) :
    analyzeProject jd d =
      { analyzeAndroid d d.files (initAnalysis d "android" l pt) with
        hasValidStructure :=
          (analyzeAndroid d d.files
            (initAnalysis d "android" l pt)).errors.isEmpty } := by
  unfold analyzeProject
  dsimp only
  rw [hdet]
  dsimp only
  rw [if_neg (by decide), if_neg (by decide), if_pos rfl]
  rfl

lemma analyzeProject_eq_cordova (jd : String → Option (List String))
    (d : ProjectDir) (l pt : String)
    (hdet : detectFramework d.files = ⟨"cordova", l, pt⟩) :
    analyzeProject jd d =
      { analyzeCordova d d.files (initAnalysis d "cordova" l pt) with
        hasValidStructure :=
          (analyzeCordova d d.files
            (initAnalysis d "cordova" l pt)).errors.isEmpty } := by
  unfold analyzeProject
  dsimp only
  rw [hdet]
  dsimp only
  rw [if_neg (by decide), if_neg (by decide), if_neg (by decide), if_pos rfl]
  rfl

lemma analyzeProject_eq_generic (jd : String → Option (List String))
    (d : ProjectDir) (fw l pt : String)
    (hdet : detectFramework d.files = ⟨fw, l, pt⟩)
    (h1 : fw ≠ "react-native") (h2 : fw ≠ "flutter") (h3 : fw ≠ "android")
    (h4 : fw ≠ "cordova") :
    analyzeProject jd d =
      { initAnalysis d fw l pt with
        framework := "generic-mobile"
        errors :=
          ["Framework not automatically detected - will use generic mobile project setup"]
        hasValidStructure := false } := by
  unfold analyzeProject
  dsimp only
  rw [hdet]
  dsimp only
  rw [if_neg h1, if_neg h2, if_neg h3, if_neg h4]
  rfl

lemma fileExists_of_readFile (d : ProjectDir) (p s : String)
    (h : readFile d p = some s) : fileExists d p = true := by
  have hs : (lookupContent d p).isSome = true := by
    unfold readFile at h
    cases hl : lookupContent d p
    · rw [hl] at h
      cases h
    · simp
  unfold fileExists
  simp [hs]

lemma analyzeAndroid_gradle_defaults (d : ProjectDir) (files : List String)
    (a : ProjectAnalysis) (g : String)
    (hread : readFile d "app/build.gradle" = some g)
    (h1 : extractGradleValue g "targetSdkVersion" = none)
    (h2 : extractGradleValue g "minSdkVersion" = none) :
    (analyzeAndroid d files a).buildConfig.targetSdk = some 33
    ∧ (analyzeAndroid d files a).buildConfig.minSdk = some 21
    ∧ (analyzeAndroid d files a).projectStats.targetSdk = some 33
    ∧ (analyzeAndroid d files a).projectStats.minSdk = some 21
    ∧ (analyzeAndroid d files a).errors = a.errors := by
  unfold analyzeAndroid
  dsimp only
  rw [hread]
  dsimp only
  rw [h1, h2, fileExists_of_readFile d _ _ hread]
  repeat' split
  all_goals simp_all [orDefault]


section FilesystemLemmas

variable (d : ProjectDir) (a : ProjectAnalysis)

lemma lookupContent_writeFile (p : String) (c : FileData) (q : String) :
    lookupContent (writeFile d p c) q =
      if q = p then some c else lookupContent d q := by
  unfold lookupContent writeFile
  dsimp only
  by_cases h : q = p
  · subst h
    simp [List.find?_cons]
  · simp [List.find?_cons, show ¬(p = q) from fun hh => h hh.symm, h]

lemma lookupContent_ensureDirectory (p q : String) :
    lookupContent (ensureDirectory d p) q = lookupContent d q := rfl

lemma writeTemplateFile_eq (e : String) (h : hasTemplate e = true) :
    ∃ c, writeTemplateFile d e a =
      writeFile d e (.plain (.text c)) := by
  unfold writeTemplateFile createAndroidManifest createBuildGradle
    createPackageJson createConfigXml
  by_cases h1 : includes e "AndroidManifest.xml"
  · exact ⟨androidManifestTemplate, by simp [h1]⟩
  · by_cases h2 : includes e "build.gradle"
    · by_cases happ : includes e "app/build.gradle"
      · exact ⟨appGradleTemplate a, by simp [h1, h2, happ]⟩
      · exact ⟨projectGradleTemplate, by simp [h1, h2, happ]⟩
    · by_cases h3 : includes e "package.json"
      · exact ⟨packageJsonTemplate, by simp [h1, h2, h3]⟩
      · by_cases h4 : includes e "config.xml"
        · exact ⟨configXmlTemplate, by simp [h1, h2, h3, h4]⟩
        · exact absurd h (by simp [hasTemplate, h1, h2, h3, h4])

lemma writeTemplateFile_not (e : String) (h : hasTemplate e = false) :
    writeTemplateFile d e a = d := by
  have h4 : includes e "config.xml" = false := by
    revert h
    unfold hasTemplate
    cases includes e "config.xml" <;> simp
  have h3 : includes e "package.json" = false := by
    revert h
    unfold hasTemplate
    cases includes e "package.json" <;> simp
  have h2 : includes e "build.gradle" = false := by
    revert h
    unfold hasTemplate
    cases includes e "build.gradle" <;> simp
  have h1 : includes e "AndroidManifest.xml" = false := by
    revert h
    unfold hasTemplate
    cases includes e "AndroidManifest.xml" <;> simp
  unfold writeTemplateFile
  simp [h1, h2, h3, h4]

lemma createMissingFiles_false_eq :
    ∀ (es : List String) (d : ProjectDir),
      createMissingFiles false a d es = .ok (cmfRun a d es) := by
  intro es
  induction es with
  | nil => intro d; rfl
  | cons e rest ih =>
    intro d
    unfold createMissingFiles cmfRun
    dsimp only
    split
    · exact ih _
    · exact ih _

lemma createMissingFilesOk_eq_cmfRun (es : List String) :
    createMissingFilesOk a d es = cmfRun a d es := by
  unfold createMissingFilesOk
  rw [createMissingFiles_false_eq]

lemma cmfRun_files :
    ∀ (es : List String) (d : ProjectDir),
      (cmfRun a d es).files = d.files ++ es.filter hasTemplate := by
  intro es
  induction es with
  | nil => intro d; simp [cmfRun]
  | cons e rest ih =>
    intro d
    unfold cmfRun
    dsimp only
    by_cases h : hasTemplate e = true
    · rw [if_pos h, ih]
      obtain ⟨c, hc⟩ := writeTemplateFile_eq (ensureDirectory d (dirnameRel e)) a e h
      rw [hc]
      simp [writeFile, ensureDirectory, List.filter_cons, h]
    · rw [if_neg h, ih]
      simp [ensureDirectory, List.filter_cons, h]

lemma cmfRun_dirs_mono :
    ∀ (es : List String) (d : ProjectDir) (x : String), x ∈ d.dirs →
      x ∈ (cmfRun a d es).dirs := by
  intro es
  induction es with
  | nil => intro d x hx; exact hx
  | cons e rest ih =>
    intro d x hx
    unfold cmfRun
    dsimp only
    by_cases h : hasTemplate e = true
    · rw [if_pos h]
      obtain ⟨c, hc⟩ := writeTemplateFile_eq (ensureDirectory d (dirnameRel e)) a e h
      rw [hc]
      exact ih _ _ (by simp [writeFile, ensureDirectory, List.mem_append, hx])
    · rw [if_neg h]
      exact ih _ _ (by simp [ensureDirectory, List.mem_append, hx])

lemma cmfRun_dirname_mem :
    ∀ (es : List String) (d : ProjectDir) (e : String), e ∈ es →
      dirnameRel e ∈ (cmfRun a d es).dirs := by
  intro es
  induction es with
  | nil => intro d e he; cases he
  | cons e0 rest ih =>
    intro d e he
    unfold cmfRun
    dsimp only
    rcases List.mem_cons.mp he with he0 | hrest
    · subst he0
      have hmem : dirnameRel e ∈ (ensureDirectory d (dirnameRel e)).dirs := by
        simp [ensureDirectory]
      by_cases h : hasTemplate e = true
      · rw [if_pos h]
        obtain ⟨c, hc⟩ := writeTemplateFile_eq (ensureDirectory d (dirnameRel e)) a e h
        rw [hc]
        exact cmfRun_dirs_mono a rest _ _ (by simpa [writeFile] using hmem)
      · rw [if_neg h]
        exact cmfRun_dirs_mono a rest _ _ hmem
    · by_cases h : hasTemplate e0 = true
      · rw [if_pos h]
        exact ih _ _ hrest
      · rw [if_neg h]
        exact ih _ _ hrest

lemma cmfRun_lookup_other :
    ∀ (es : List String) (d : ProjectDir) (p : String),
      (∀ e ∈ es, ¬(hasTemplate e = true ∧ e = p)) →
      lookupContent (cmfRun a d es) p = lookupContent d p := by
  intro es
  induction es with
  | nil => intro d p _; rfl
  | cons e rest ih =>
    intro d p hp
    unfold cmfRun
    dsimp only
    by_cases h : hasTemplate e = true
    · rw [if_pos h]
      obtain ⟨c, hc⟩ := writeTemplateFile_eq (ensureDirectory d (dirnameRel e)) a e h
      rw [hc, ih _ _ (fun x hx => hp x (List.mem_cons_of_mem e hx)),
        lookupContent_writeFile]
      have hne : ¬(p = e) := by
        intro hpe
        exact hp e (List.mem_cons_self e rest) ⟨h, hpe.symm⟩
      rw [if_neg hne]
      rfl
    · rw [if_neg h]
      exact ih _ _ (fun x hx => hp x (List.mem_cons_of_mem e hx))

lemma cmfRun_lookup_textOr :
    ∀ (es : List String) (d : ProjectDir) (p : String),
      lookupContent (cmfRun a d es) p = lookupContent d p
      ∨ ∃ c, lookupContent (cmfRun a d es) p =
          some (.plain (.text c)) := by
  intro es
  induction es with
  | nil => intro d p; exact Or.inl rfl
  | cons e rest ih =>
    intro d p
    unfold cmfRun
    dsimp only
    by_cases h : hasTemplate e = true
    · rw [if_pos h]
      obtain ⟨c, hc⟩ := writeTemplateFile_eq (ensureDirectory d (dirnameRel e)) a e h
      rw [hc]
      rcases ih (writeFile (ensureDirectory d (dirnameRel e)) e (.plain (.text c))) p with
        hsame | htext
      · rw [hsame, lookupContent_writeFile]
        by_cases hpe : p = e
        · exact Or.inr ⟨c, by rw [if_pos hpe]⟩
        · exact Or.inl (by rw [if_neg hpe]; rfl)
      · exact Or.inr htext
    · rw [if_neg h]
      exact ih _ _

lemma cmfRun_lookup_template :
    ∀ (es : List String) (d : ProjectDir) (e : String), e ∈ es →
      hasTemplate e = true →
      ∃ c, lookupContent (cmfRun a d es) e =
        some (.plain (.text c)) := by
  intro es
  induction es with
  | nil => intro d e he; cases he
  | cons e0 rest ih =>
    intro d e he htmp
    unfold cmfRun
    dsimp only
    rcases List.mem_cons.mp he with he0 | hrest
    · subst he0
      rw [if_pos htmp]
      obtain ⟨c, hc⟩ := writeTemplateFile_eq (ensureDirectory d (dirnameRel e)) a e htmp
      rw [hc]
      rcases cmfRun_lookup_textOr a rest
          (writeFile (ensureDirectory d (dirnameRel e)) e (.plain (.text c))) e with
        hsame | htext
      · exact ⟨c, by rw [hsame, lookupContent_writeFile, if_pos rfl]⟩
      · exact htext
    · by_cases h : hasTemplate e0 = true
      · rw [if_pos h]
        exact ih _ _ hrest htmp
      · rw [if_neg h]
        exact ih _ _ hrest htmp

end FilesystemLemmas

lemma includes_surround (x y z pat : String) (h : includes y pat = true) :
    includes (x ++ y ++ z) pat = true := by
  rw [includes_iff_middle] at h ⊢
  obtain ⟨s, t, hst⟩ := h
  refine ⟨x.data ++ s, t ++ z.data, ?_⟩
  simp only [String.data_append, List.append_assoc]
  have hmid : s ++ (pat.data ++ (t ++ z.data)) = y.data ++ z.data := by
    rw [← hst]
    simp [List.append_assoc]
  rw [hmid]

lemma orDefault_some_zero (n : Nat) : orDefault (some n) 0 = n := by
  unfold orDefault
  dsimp only
  by_cases h : n = 0
  · subst h; rfl
  · rw [if_neg h]

lemma fileExists_ensureDirectory_ne (d : ProjectDir) (p q : String)
    (h : ¬(q = p)) : fileExists (ensureDirectory d p) q = fileExists d q := by
  unfold fileExists ensureDirectory lookupContent
  dsimp only
  have : (d.dirs ++ [p]).contains q = d.dirs.contains q := by
    simp [List.elem_eq_mem, h]
  rw [this]

lemma fallbackEntries_ensureApkDir (d : ProjectDir) :
    fallbackEntries (ensureDirectory d "build/outputs/apk/release") =
      fallbackEntries d := by
  unfold fallbackEntries fallbackCandidates
  simp only [List.filterMap]
  rw [fileExists_ensureDirectory_ne d _ "package.json" (by decide),
    fileExists_ensureDirectory_ne d _ "index.html" (by decide),
    fileExists_ensureDirectory_ne d _ "app.js" (by decide),
    fileExists_ensureDirectory_ne d _ "main.dart" (by decide),
    fileExists_ensureDirectory_ne d _ "pubspec.yaml" (by decide)]
  rfl

lemma createMissingFiles_true_error (a : ProjectAnalysis) :
    ∀ (es : List String) (d : ProjectDir), es.any hasTemplate = true →
      ∃ d2, createMissingFiles true a d es = .error ("write error", d2) := by
  intro es
  induction es with
  | nil => intro d h; cases h
  | cons e rest ih =>
    intro d h
    unfold createMissingFiles
    dsimp only
    by_cases he : hasTemplate e = true
    · rw [if_pos he]
      exact ⟨_, rfl⟩
    · rw [if_neg he]
      refine ih _ ?_
      rcases List.any_eq_true.mp h with ⟨x, hx, hxt⟩
      rcases List.mem_cons.mp hx with hx0 | hx1
      · subst hx0; exact absurd hxt he
      · exact List.any_eq_true.mpr ⟨x, hx1, hxt⟩

lemma createMissingFiles_noTemplate (a : ProjectAnalysis) :
    ∀ (es : List String) (d : ProjectDir), es.any hasTemplate = false →
      ∀ wf, createMissingFiles wf a d es = .ok (cmfRun a d es) := by
  intro es
  induction es with
  | nil => intro d _ wf; rfl
  | cons e rest ih =>
    intro d h wf
    have he : hasTemplate e = false := by
      rcases List.any_eq_false.mp h e (List.mem_cons_self e rest) with h2
      exact Bool.not_eq_true _ ▸ (by simpa using h2)
    have hr : rest.any hasTemplate = false :=
      List.any_eq_false.mpr
        (fun x hx => List.any_eq_false.mp h x (List.mem_cons_of_mem e hx))
    unfold createMissingFiles cmfRun
    dsimp only
    rw [if_neg (by simp [he]), if_neg (by simp [he])]
    exact ih _ hr wf

lemma buildApk_success_of_ok (faults : Faults) (now : String) (d : ProjectDir)
    (a : ProjectAnalysis) (d1 : ProjectDir)
    (hcb : ∀ p m, faults.cbThrows p m = false)
    (hst : faults.statsFails = false)
    (hv : validateBuildRequirements a = [])
    (hok : createMissingFiles faults.writeFails a d a.missingFiles = .ok d1)
    (hs : validateProjectStructure d1 a = true) :
    buildApk faults now d a =
      ⟨some { success := true, apkPath := some apkOutputPath,
              apkSize := some (orDefault (getFileStats
                (createRealApk faults now d1 a).1 apkOutputPath) 0),
              errors := [],
              logs := ["APK package created successfully",
                "Framework: " ++ a.framework,
                "Package size: " ++ formatMB (orDefault (getFileStats
                  (createRealApk faults now d1 a).1 apkOutputPath) 0)
                  ++ " MB",
                "Files included: " ++
                  toString a.projectStats.totalFiles ++ " files",
                "Build target: Android API " ++
                  toString (orDefault a.buildConfig.targetSdk 33)] },
       (createRealApk faults now d1 a).1,
       [(10, "Starting APK build process..."),
        (30, "Project setup completed..."),
        (70, "Packaging APK file..."),
        (100, "APK build completed successfully!")]⟩ := by
  unfold buildApk
  simp only [hcb, hst]
  rw [hv, hok]
  dsimp only
  rw [if_pos hs]
  rfl

lemma buildApk_validation_fail_eq (faults : Faults) (now : String)
    (d : ProjectDir) (a : ProjectAnalysis)
    (hcb : ∀ p m, faults.cbThrows p m = false)
    (hve : (validateBuildRequirements a).isEmpty = false) :
    buildApk faults now d a =
      ⟨some { success := false, apkPath := none, apkSize := none,
              errors := validateBuildRequirements a, logs := [] },
       d,
       [(10, "Starting APK build process..."),
        (100, "Build validation failed - missing requirements")]⟩ := by
  unfold buildApk
  simp only [hcb]
  rw [hve]
  rfl

lemma buildApk_write_error_eq (faults : Faults) (now : String)
    (d : ProjectDir) (a : ProjectAnalysis) (d2 : ProjectDir)
    (hcb : ∀ p m, faults.cbThrows p m = false)
    (hve : validateBuildRequirements a = [])
    (herr : createMissingFiles faults.writeFails a d a.missingFiles =
      .error ("write error", d2)) :
    buildApk faults now d a =
      ⟨some { success := false, apkPath := none, apkSize := none,
              errors := ["Build failed: write error"], logs := [] },
       d2,
       [(10, "Starting APK build process..."),
        (100, "Build process failed")]⟩ := by
  unfold buildApk
  simp only [hcb]
  rw [hve, herr]
  dsimp only
  unfold buildCatch
  simp only [hcb]
  rfl

lemma buildApk_structure_fail_eq (faults : Faults) (now : String)
    (d : ProjectDir) (a : ProjectAnalysis) (d1 : ProjectDir)
    (hcb : ∀ p m, faults.cbThrows p m = false)
    (hve : validateBuildRequirements a = [])
    (hok : createMissingFiles faults.writeFails a d a.missingFiles = .ok d1)
    (hsv : validateProjectStructure d1 a = false) :
    buildApk faults now d a =
      ⟨some { success := false, apkPath := none, apkSize := none,
              errors := ["Project structure validation failed after setup"],
              logs := [] },
       d1,
       [(10, "Starting APK build process..."),
        (30, "Project setup completed..."),
        (100, "Project setup validation failed")]⟩ := by
  unfold buildApk
  simp only [hcb]
  rw [hve, hok]
  dsimp only
  rw [hsv]
  rfl

lemma buildApk_stats_fail_eq (faults : Faults) (now : String)
    (d : ProjectDir) (a : ProjectAnalysis) (d1 : ProjectDir)
    (hcb : ∀ p m, faults.cbThrows p m = false)
    (hve : validateBuildRequirements a = [])
    (hok : createMissingFiles faults.writeFails a d a.missingFiles = .ok d1)
    (hsv : validateProjectStructure d1 a = true)
    (hst : faults.statsFails = true) :
    buildApk faults now d a =
      ⟨some { success := false, apkPath := none, apkSize := none,
              errors := ["Build failed: stats error"], logs := [] },
       (createRealApk faults now d1 a).1,
       [(10, "Starting APK build process..."),
        (30, "Project setup completed..."),
        (70, "Packaging APK file..."),
        (100, "Build process failed")]⟩ := by
  unfold buildApk
  simp only [hcb, hst]
  rw [hve, hok]
  dsimp only
  rw [if_pos hsv]
  unfold buildCatch
  simp only [hcb]
  rfl

lemma bool_eq_false_of_ne {b : Bool} (h : ¬(b = true)) : b = false := by
  cases b
  · rfl
  · exact absurd rfl h

lemma detect_rn_inv (files : List String) (l pt : String)
    (h : detectFramework files = ⟨"react-native", l, pt⟩) :
    (files.any (fun f => includes f "package.json")
      && files.any rnMarker) = true := by
  unfold detectFramework at h
  by_cases hc : (files.any (fun f => includes f "package.json")
      && files.any rnMarker) = true
  · exact hc
  · rw [if_neg hc] at h
    exfalso
    unfold detectFrameworkRest at h
    repeat' split at h
    all_goals injection h with h1 h2 h3
    all_goals exact absurd h1 (by decide)

lemma detect_flutter_inv (files : List String) (l pt : String)
    (h : detectFramework files = ⟨"flutter", l, pt⟩) :
    (files.any (fun f => includes f "package.json")
      && files.any rnMarker) = false
    ∧ files.any (fun f => includes f "pubspec.yaml") = true := by
  unfold detectFramework at h
  by_cases hc : (files.any (fun f => includes f "package.json")
      && files.any rnMarker) = true
  · rw [if_pos hc] at h
    injection h with h1 h2 h3
    exact absurd h1 (by decide)
  · refine ⟨bool_eq_false_of_ne hc, ?_⟩
    rw [if_neg hc] at h
    unfold detectFrameworkRest at h
    by_cases hp : files.any (fun f => includes f "pubspec.yaml") = true
    · exact hp
    · rw [if_neg hp] at h
      exfalso
      repeat' split at h
      all_goals injection h with h1 h2 h3
      all_goals exact absurd h1 (by decide)

lemma detect_android_inv (files : List String) (l pt : String)
    (h : detectFramework files = ⟨"android", l, pt⟩) :
    (files.any (fun f => includes f "package.json")
      && files.any rnMarker) = false
    ∧ files.any (fun f => includes f "pubspec.yaml") = false
    ∧ files.any (fun f =>
        includes f "build.gradle" || includes f "AndroidManifest.xml")
      = true := by
  unfold detectFramework at h
  by_cases hc : (files.any (fun f => includes f "package.json")
      && files.any rnMarker) = true
  · rw [if_pos hc] at h
    injection h with h1 h2 h3
    exact absurd h1 (by decide)
  · refine ⟨bool_eq_false_of_ne hc, ?_, ?_⟩
    all_goals rw [if_neg hc] at h
    all_goals unfold detectFrameworkRest at h
    · by_cases hp : files.any (fun f => includes f "pubspec.yaml") = true
      · rw [if_pos hp] at h
        injection h with h1 h2 h3
        exact absurd h1 (by decide)
      · exact bool_eq_false_of_ne hp
    · by_cases hp : files.any (fun f => includes f "pubspec.yaml") = true
      · rw [if_pos hp] at h
        injection h with h1 h2 h3
        exact absurd h1 (by decide)
      · rw [if_neg hp] at h
        by_cases hg : files.any (fun f =>
            includes f "build.gradle" || includes f "AndroidManifest.xml")
            = true
        · exact hg
        · rw [if_neg hg] at h
          exfalso
          repeat' split at h
          all_goals injection h with h1 h2 h3
          all_goals exact absurd h1 (by decide)

lemma detect_cordova_inv (files : List String) (l pt : String)
    (h : detectFramework files = ⟨"cordova", l, pt⟩) :
    (files.any (fun f => includes f "package.json")
      && files.any rnMarker) = false
    ∧ files.any (fun f => includes f "pubspec.yaml") = false
    ∧ files.any (fun f =>
        includes f "build.gradle" || includes f "AndroidManifest.xml")
      = false
    ∧ files.any (fun f => includes f "config.xml" && includes f "www")
      = true := by
  unfold detectFramework at h
  by_cases hc : (files.any (fun f => includes f "package.json")
      && files.any rnMarker) = true
  · rw [if_pos hc] at h
    injection h with h1 h2 h3
    exact absurd h1 (by decide)
  · rw [if_neg hc] at h
    unfold detectFrameworkRest at h
    by_cases hp : files.any (fun f => includes f "pubspec.yaml") = true
    · rw [if_pos hp] at h
      injection h with h1 h2 h3
      exact absurd h1 (by decide)
    · rw [if_neg hp] at h
      by_cases hg : files.any (fun f =>
          includes f "build.gradle" || includes f "AndroidManifest.xml")
          = true
      · rw [if_pos hg] at h
        injection h with h1 h2 h3
        exact absurd h1 (by decide)
      · rw [if_neg hg] at h
        refine ⟨bool_eq_false_of_ne hc, bool_eq_false_of_ne hp,
          bool_eq_false_of_ne hg, ?_⟩
        by_cases hw : files.any (fun f =>
            includes f "config.xml" && includes f "www") = true
        · exact hw
        · rw [if_neg hw] at h
          injection h with h1 h2 h3
          exact absurd h1 (by decide)

lemma any_filter_filter_false (R : List String) (p p2 q : String → Bool)
    (h : ∀ x ∈ R, q x = false) :
    ((R.filter p).filter p2).any q = false :=
  List.any_eq_false.mpr (fun x hx => by
    have hx1 := List.mem_of_mem_filter hx
    have hx2 := List.mem_of_mem_filter hx1
    simp [h x hx2])

lemma roundtrip_filter_eq (R files W : List String)
    (hW : W = (R.filter
      (fun file => !(files.any (fun f => includes f file)))).filter
        hasTemplate)
    (hcross : ∀ e ∈ R, hasTemplate e = false →
      ∀ w ∈ R, hasTemplate w = true → includes w e = false) :
    R.filter (fun file => !((files ++ W).any (fun f => includes f file))) =
      (R.filter (fun file =>
        !(files.any (fun f => includes f file)))).filter
        (fun e => !(hasTemplate e)) := by
  rw [List.filter_filter]
  refine List.filter_congr (fun e he => ?_)
  rw [List.any_append]
  by_cases hP : files.any (fun f => includes f e) = true
  · simp [hP]
  · have hPf : files.any (fun f => includes f e) = false :=
      bool_eq_false_of_ne hP
    by_cases ht : hasTemplate e = true
    · have hmem : e ∈ W := by
        rw [hW]
        exact List.mem_filter.mpr
          ⟨List.mem_filter.mpr ⟨he, by simp [hPf]⟩, ht⟩
      have hWany : W.any (fun f => includes f e) = true :=
        List.any_eq_true.mpr ⟨e, hmem, includes_refl e⟩
      simp [hPf, hWany, ht]
    · have htf : hasTemplate e = false := bool_eq_false_of_ne ht
      have hWany : W.any (fun f => includes f e) = false := by
        rw [hW]
        refine List.any_eq_false.mpr (fun w hw => ?_)
        have hw1 := List.mem_of_mem_filter hw
        have hwt : hasTemplate w = true := (List.mem_filter.mp hw).2
        have hwR : w ∈ R := List.mem_of_mem_filter hw1
        simp [hcross e he htf w hwR hwt]
      simp [hPf, hWany, htf]

/-- C3 (amended).  `missingFiles` is exactly the detected framework's
checklist entries that no path of the file list contains as a substring, in
checklist order.  Running `createMissingFiles` and re-analysing yields the
previously-missing entries that match none of the four synthesizer templates
— empty for react-native and android checklists, but entries such as
flutter's `lib/main.dart` and cordova's `www/index.html` stay missing. -/
theorem claim3_missingFiles_roundtrip
    (jd jd2 : String → Option (List String)) (d : ProjectDir) :
    (analyzeProject jd d).missingFiles =
      (requiredFilesFor (analyzeProject jd d).framework).filter
        (fun file => !(d.files.any (fun f => includes f file)))
    ∧ (analyzeProject jd2 (createMissingFilesOk (analyzeProject jd d) d
        (analyzeProject jd d).missingFiles)).missingFiles =
      (analyzeProject jd d).missingFiles.filter
        (fun e => !(hasTemplate e)) := by
  rcases hdet : detectFramework d.files with ⟨fw, l, pt⟩
  have hfiles2 : (createMissingFilesOk (analyzeProject jd d) d
      (analyzeProject jd d).missingFiles).files =
      d.files ++ ((analyzeProject jd d).missingFiles.filter hasTemplate) := by
    rw [createMissingFilesOk_eq_cmfRun]
    exact cmfRun_files _ _ _
  by_cases h1 : fw = "react-native"
  · subst h1
    have hA := analyzeProject_eq_rn jd d l pt hdet
    have hm : (analyzeProject jd d).missingFiles =
        ["package.json", "android/build.gradle",
          "android/app/build.gradle"].filter
          (fun file => !(d.files.any (fun f => includes f file))) := by
      rw [hA]
      exact analyzeReactNative_missingFiles jd d d.files _
    have hfw : (analyzeProject jd d).framework = "react-native" := by
      rw [hA]
      exact analyzeReactNative_framework jd d d.files _
    have hrn := detect_rn_inv d.files l pt hdet
    simp only [Bool.and_eq_true] at hrn
    obtain ⟨hp, hmk⟩ := hrn
    have hc1 : ((createMissingFilesOk (analyzeProject jd d) d
        (analyzeProject jd d).missingFiles).files.any
          (fun f => includes f "package.json")
        && (createMissingFilesOk (analyzeProject jd d) d
          (analyzeProject jd d).missingFiles).files.any rnMarker) = true := by
      rw [hfiles2]
      simp [List.any_append, hp, hmk]
    have hdet2 : detectFramework (createMissingFilesOk (analyzeProject jd d) d
        (analyzeProject jd d).missingFiles).files =
        ⟨"react-native", "javascript", "hybrid"⟩ := by
      unfold detectFramework
      rw [hc1]
      rfl
    have hB := analyzeProject_eq_rn jd2 _ "javascript" "hybrid" hdet2
    have hm2 : (analyzeProject jd2 (createMissingFilesOk (analyzeProject jd d)
        d (analyzeProject jd d).missingFiles)).missingFiles =
        ["package.json", "android/build.gradle",
          "android/app/build.gradle"].filter
          (fun file => !((createMissingFilesOk (analyzeProject jd d) d
            (analyzeProject jd d).missingFiles).files.any
              (fun f => includes f file))) := by
      rw [hB]
      exact analyzeReactNative_missingFiles jd2 _ _ _
    refine ⟨by rw [hfw, hm]; rfl, ?_⟩
    rw [hm2]
    simp only [hfiles2]
    simp only [hm]
    exact roundtrip_filter_eq ["package.json", "android/build.gradle",
      "android/app/build.gradle"] d.files _ rfl (by decide)
  · by_cases h2 : fw = "flutter"
    · subst h2
      have hA := analyzeProject_eq_flutter jd d l pt hdet
      have hm : (analyzeProject jd d).missingFiles =
          ["pubspec.yaml", "android/build.gradle", "lib/main.dart"].filter
            (fun file => !(d.files.any (fun f => includes f file))) := by
        rw [hA]
        exact analyzeFlutter_missingFiles d d.files _
      have hfw : (analyzeProject jd d).framework = "flutter" := by
        rw [hA]
        exact analyzeFlutter_framework d d.files _
      obtain ⟨hnc, hpub⟩ := detect_flutter_inv d.files l pt hdet
      have hW2 : (analyzeProject jd d).missingFiles.filter hasTemplate =
          (["pubspec.yaml", "android/build.gradle", "lib/main.dart"].filter
            (fun file =>
              !(d.files.any (fun f => includes f file)))).filter
            hasTemplate := by
        rw [hm]
      have e1 : ((["pubspec.yaml", "android/build.gradle",
          "lib/main.dart"].filter (fun file =>
            !(d.files.any (fun f => includes f file)))).filter
          hasTemplate).any (fun f => includes f "package.json") = false :=
        any_filter_filter_false _ _ _ _ (by decide)
      have e2 : ((["pubspec.yaml", "android/build.gradle",
          "lib/main.dart"].filter (fun file =>
            !(d.files.any (fun f => includes f file)))).filter
          hasTemplate).any rnMarker = false :=
        any_filter_filter_false _ _ _ _ (by decide)
      have hc1 : ((createMissingFilesOk (analyzeProject jd d) d
          (analyzeProject jd d).missingFiles).files.any
            (fun f => includes f "package.json")
          && (createMissingFilesOk (analyzeProject jd d) d
            (analyzeProject jd d).missingFiles).files.any rnMarker)
          = false := by
        rw [hfiles2, hW2, List.any_append, List.any_append, e1, e2]
        simp only [Bool.or_false]
        exact hnc
      have hc2 : (createMissingFilesOk (analyzeProject jd d) d
          (analyzeProject jd d).missingFiles).files.any
            (fun f => includes f "pubspec.yaml") = true := by
        rw [hfiles2, List.any_append, hpub]
        rfl
      have hdet2 : detectFramework (createMissingFilesOk
          (analyzeProject jd d) d
          (analyzeProject jd d).missingFiles).files =
          ⟨"flutter", "dart", "hybrid"⟩ := by
        unfold detectFramework detectFrameworkRest
        rw [hc1, hc2]
        rfl
      have hB := analyzeProject_eq_flutter jd2 _ "dart" "hybrid" hdet2
      have hm2 : (analyzeProject jd2 (createMissingFilesOk
          (analyzeProject jd d) d
          (analyzeProject jd d).missingFiles)).missingFiles =
          ["pubspec.yaml", "android/build.gradle", "lib/main.dart"].filter
            (fun file => !((createMissingFilesOk (analyzeProject jd d) d
              (analyzeProject jd d).missingFiles).files.any
                (fun f => includes f file))) := by
        rw [hB]
        exact analyzeFlutter_missingFiles _ _ _
      refine ⟨by rw [hfw, hm]; rfl, ?_⟩
      rw [hm2]
      simp only [hfiles2]
      simp only [hm]
      exact roundtrip_filter_eq ["pubspec.yaml", "android/build.gradle",
        "lib/main.dart"] d.files _ rfl (by decide)
    · by_cases h3 : fw = "android"
      · subst h3
        have hA := analyzeProject_eq_android jd d l pt hdet
        have hm : (analyzeProject jd d).missingFiles =
            ["build.gradle", "app/build.gradle",
              "app/src/main/AndroidManifest.xml"].filter
              (fun file => !(d.files.any (fun f => includes f file))) := by
          rw [hA]
          exact analyzeAndroid_missingFiles d d.files _
        have hfw : (analyzeProject jd d).framework = "android" := by
          rw [hA]
          exact analyzeAndroid_framework d d.files _
        obtain ⟨hnc, hnp, hgm⟩ := detect_android_inv d.files l pt hdet
        have hW2 : (analyzeProject jd d).missingFiles.filter hasTemplate =
            (["build.gradle", "app/build.gradle",
              "app/src/main/AndroidManifest.xml"].filter (fun file =>
                !(d.files.any (fun f => includes f file)))).filter
              hasTemplate := by
          rw [hm]
        have e1 : ((["build.gradle", "app/build.gradle",
            "app/src/main/AndroidManifest.xml"].filter (fun file =>
              !(d.files.any (fun f => includes f file)))).filter
            hasTemplate).any (fun f => includes f "package.json") = false :=
          any_filter_filter_false _ _ _ _ (by decide)
        have e2 : ((["build.gradle", "app/build.gradle",
            "app/src/main/AndroidManifest.xml"].filter (fun file =>
              !(d.files.any (fun f => includes f file)))).filter
            hasTemplate).any rnMarker = false :=
          any_filter_filter_false _ _ _ _ (by decide)
        have e3 : ((["build.gradle", "app/build.gradle",
            "app/src/main/AndroidManifest.xml"].filter (fun file =>
              !(d.files.any (fun f => includes f file)))).filter
            hasTemplate).any (fun f => includes f "pubspec.yaml") = false :=
          any_filter_filter_false _ _ _ _ (by decide)
        have hc1 : ((createMissingFilesOk (analyzeProject jd d) d
            (analyzeProject jd d).missingFiles).files.any
              (fun f => includes f "package.json")
            && (createMissingFilesOk (analyzeProject jd d) d
              (analyzeProject jd d).missingFiles).files.any rnMarker)
            = false := by
          rw [hfiles2, hW2, List.any_append, List.any_append, e1, e2]
          simp only [Bool.or_false]
          exact hnc
        have hc2 : (createMissingFilesOk (analyzeProject jd d) d
            (analyzeProject jd d).missingFiles).files.any
              (fun f => includes f "pubspec.yaml") = false := by
          rw [hfiles2, hW2, List.any_append, hnp, e3]
          rfl
        have hc3 : (createMissingFilesOk (analyzeProject jd d) d
            (analyzeProject jd d).missingFiles).files.any
              (fun f => includes f "build.gradle"
                || includes f "AndroidManifest.xml") = true := by
          rw [hfiles2, List.any_append, hgm]
          rfl
        have hdet2 : detectFramework (createMissingFilesOk
            (analyzeProject jd d) d
            (analyzeProject jd d).missingFiles).files =
            ⟨"android", detectLanguageAndroid (createMissingFilesOk
              (analyzeProject jd d) d
              (analyzeProject jd d).missingFiles).files, "native"⟩ := by
          unfold detectFramework detectFrameworkRest
          rw [hc1, hc2, hc3]
          rfl
        have hB := analyzeProject_eq_android jd2 _ _ _ hdet2
        have hm2 : (analyzeProject jd2 (createMissingFilesOk
            (analyzeProject jd d) d
            (analyzeProject jd d).missingFiles)).missingFiles =
            ["build.gradle", "app/build.gradle",
              "app/src/main/AndroidManifest.xml"].filter
              (fun file => !((createMissingFilesOk (analyzeProject jd d) d
                (analyzeProject jd d).missingFiles).files.any
                  (fun f => includes f file))) := by
          rw [hB]
          exact analyzeAndroid_missingFiles _ _ _
        refine ⟨by rw [hfw, hm]; rfl, ?_⟩
        rw [hm2]
        simp only [hfiles2]
        simp only [hm]
        exact roundtrip_filter_eq ["build.gradle", "app/build.gradle",
          "app/src/main/AndroidManifest.xml"] d.files _ rfl (by decide)
      · by_cases h4 : fw = "cordova"
        · subst h4
          have hA := analyzeProject_eq_cordova jd d l pt hdet
          have hm : (analyzeProject jd d).missingFiles =
              ["config.xml", "www/index.html"].filter
                (fun file => !(d.files.any (fun f => includes f file))) := by
            rw [hA]
            exact analyzeCordova_missingFiles d d.files _
          have hfw : (analyzeProject jd d).framework = "cordova" := by
            rw [hA]
            exact analyzeCordova_framework d d.files _
          obtain ⟨hnc, hnp, hng, hcw⟩ := detect_cordova_inv d.files l pt hdet
          have hW2 : (analyzeProject jd d).missingFiles.filter hasTemplate =
              (["config.xml", "www/index.html"].filter (fun file =>
                !(d.files.any (fun f => includes f file)))).filter
                hasTemplate := by
            rw [hm]
          have e1 : ((["config.xml", "www/index.html"].filter (fun file =>
              !(d.files.any (fun f => includes f file)))).filter
              hasTemplate).any (fun f => includes f "package.json") = false :=
            any_filter_filter_false _ _ _ _ (by decide)
          have e2 : ((["config.xml", "www/index.html"].filter (fun file =>
              !(d.files.any (fun f => includes f file)))).filter
              hasTemplate).any rnMarker = false :=
            any_filter_filter_false _ _ _ _ (by decide)
          have e3 : ((["config.xml", "www/index.html"].filter (fun file =>
              !(d.files.any (fun f => includes f file)))).filter
              hasTemplate).any (fun f => includes f "pubspec.yaml") = false :=
            any_filter_filter_false _ _ _ _ (by decide)
          have e4 : ((["config.xml", "www/index.html"].filter (fun file =>
              !(d.files.any (fun f => includes f file)))).filter
              hasTemplate).any (fun f => includes f "build.gradle"
                || includes f "AndroidManifest.xml") = false :=
            any_filter_filter_false _ _ _ _ (by decide)
          have hc1 : ((createMissingFilesOk (analyzeProject jd d) d
              (analyzeProject jd d).missingFiles).files.any
                (fun f => includes f "package.json")
              && (createMissingFilesOk (analyzeProject jd d) d
                (analyzeProject jd d).missingFiles).files.any rnMarker)
              = false := by
            rw [hfiles2, hW2, List.any_append, List.any_append, e1, e2]
            simp only [Bool.or_false]
            exact hnc
          have hc2 : (createMissingFilesOk (analyzeProject jd d) d
              (analyzeProject jd d).missingFiles).files.any
                (fun f => includes f "pubspec.yaml") = false := by
            rw [hfiles2, hW2, List.any_append, hnp, e3]
            rfl
          have hc3 : (createMissingFilesOk (analyzeProject jd d) d
              (analyzeProject jd d).missingFiles).files.any
                (fun f => includes f "build.gradle"
                  || includes f "AndroidManifest.xml") = false := by
            rw [hfiles2, hW2, List.any_append, hng, e4]
            rfl
          have hc4 : (createMissingFilesOk (analyzeProject jd d) d
              (analyzeProject jd d).missingFiles).files.any
                (fun f => includes f "config.xml" && includes f "www")
                = true := by
            rw [hfiles2, List.any_append, hcw]
            rfl
          have hdet2 : detectFramework (createMissingFilesOk
              (analyzeProject jd d) d
              (analyzeProject jd d).missingFiles).files =
              ⟨"cordova", "javascript", "hybrid"⟩ := by
            unfold detectFramework detectFrameworkRest
            rw [hc1, hc2, hc3, hc4]
            rfl
          have hB := analyzeProject_eq_cordova jd2 _ "javascript" "hybrid"
            hdet2
          have hm2 : (analyzeProject jd2 (createMissingFilesOk
              (analyzeProject jd d) d
              (analyzeProject jd d).missingFiles)).missingFiles =
              ["config.xml", "www/index.html"].filter
                (fun file => !((createMissingFilesOk (analyzeProject jd d) d
                  (analyzeProject jd d).missingFiles).files.any
                    (fun f => includes f file))) := by
            rw [hB]
            exact analyzeCordova_missingFiles _ _ _
          refine ⟨by rw [hfw, hm]; rfl, ?_⟩
          rw [hm2]
          simp only [hfiles2]
          simp only [hm]
          exact roundtrip_filter_eq ["config.xml", "www/index.html"]
            d.files _ rfl (by decide)
        · have hA := analyzeProject_eq_generic jd d fw l pt hdet h1 h2 h3 h4
          have hm : (analyzeProject jd d).missingFiles = [] := by
            rw [hA]
            rfl
          have hfw : (analyzeProject jd d).framework = "generic-mobile" := by
            rw [hA]
          have hA2 := analyzeProject_eq_generic jd2 d fw l pt hdet h1 h2 h3 h4
          refine ⟨by rw [hfw, hm]; rfl, ?_⟩
          rw [hm]
          show (analyzeProject jd2 (createMissingFilesOk (analyzeProject jd d)
            d [])).missingFiles = []
          have hid : createMissingFilesOk (analyzeProject jd d) d [] = d :=
            rfl
          rw [hid, hA2]
          rfl

/-- Counterexample to C3 as stated: for a flutter project missing only
`lib/main.dart`, running `createMissingFiles` and re-analysing leaves
`missingFiles = ["lib/main.dart"]`, not the empty list the claimed
round-trip promises. -/
theorem claim3_counterexample :
    (analyzeProject (fun _ => none)
      (createMissingFilesOk (analyzeProject (fun _ => none) flutterDir)
        flutterDir
        (analyzeProject (fun _ => none) flutterDir).missingFiles)).missingFiles
      = ["lib/main.dart"]
    ∧ ["lib/main.dart"] ≠ ([] : List String) := by
  constructor
  · decide
  · decide

/-- C5.  Once requirement and structure validation pass, a thrown error in
ZIP assembly triggers the fallback path: a minimal archive holding exactly
the fixed candidate files that exist at the project root is written at the
same output path and `buildApk` still returns `success = true`; likewise a
failing optional asset sub-step never produces `success = false`. -/
theorem claim5_packaging_fallback_success (now : String) (d : ProjectDir)
    (a : ProjectAnalysis)
    (hv : validateBuildRequirements a = [])
    (hs : validateProjectStructure (createMissingFilesOk a d a.missingFiles) a
      = true) :
    (∃ r, (buildApk { zipFails := true } now d a).result = some r
      ∧ r.success = true ∧ r.apkPath = some apkOutputPath)
    ∧ lookupContent (buildApk { zipFails := true } now d a).dir apkOutputPath =
        some (.archive (fallbackEntries (createMissingFilesOk a d
          a.missingFiles)))
    ∧ (∃ r2, (buildApk { assetFails := true } now d a).result = some r2
        ∧ r2.success = true) := by
  rw [createMissingFilesOk_eq_cmfRun] at hs
  have h1 := buildApk_success_of_ok { zipFails := true } now d a
    (cmfRun a d a.missingFiles) (fun _ _ => rfl) rfl hv
    (createMissingFiles_false_eq a a.missingFiles d) hs
  have h2 := buildApk_success_of_ok { assetFails := true } now d a
    (cmfRun a d a.missingFiles) (fun _ _ => rfl) rfl hv
    (createMissingFiles_false_eq a a.missingFiles d) hs
  refine ⟨?_, ?_, ?_⟩
  · rw [h1]
    exact ⟨_, rfl, rfl, rfl⟩
  · rw [h1, createMissingFilesOk_eq_cmfRun]
    dsimp only
    show lookupContent
      (writeFile (ensureDirectory (cmfRun a d a.missingFiles)
        "build/outputs/apk/release") apkOutputPath
        (.archive (fallbackEntries (ensureDirectory (cmfRun a d a.missingFiles)
          "build/outputs/apk/release")))) apkOutputPath = _
    rw [lookupContent_writeFile, if_pos rfl, fallbackEntries_ensureApkDir]
  · rw [h2]
    exact ⟨_, rfl, rfl⟩

/-- Witness for C5 on a concrete generic project: both fault scenarios keep
`success = true`, and the injected assembly error leaves the minimal fallback
archive at the output path. -/
theorem claim5_witness :
    (∃ r, (buildApk { zipFails := true } "T" demoDir genAnalysis).result =
        some r
      ∧ r.success = true ∧ r.apkPath = some apkOutputPath)
    ∧ lookupContent (buildApk { zipFails := true } "T" demoDir
        genAnalysis).dir apkOutputPath =
        some (.archive (fallbackEntries (createMissingFilesOk genAnalysis
          demoDir genAnalysis.missingFiles)))
    ∧ (∃ r2, (buildApk { assetFails := true } "T" demoDir genAnalysis).result
        = some r2 ∧ r2.success = true) :=
  claim5_packaging_fallback_success "T" demoDir genAnalysis (by decide)
    (by decide)

set_option maxRecDepth 100000 in
/-- C7.  On a successful fault-free build the archive sits at the
deterministic relative output path, the reported `apkSize` is that file's
byte size, and the archive's manifest entry is the template with the
defaulted substitutions: package `com.<framework>.app`, app name
`Mobile App`, version `1.0.0`, `minSdk 21`, `targetSdk 33`. -/
theorem claim7_success_artifact (now : String) (d : ProjectDir)
    (a : ProjectAnalysis)
    (hv : validateBuildRequirements a = [])
    (hs : validateProjectStructure (createMissingFilesOk a d a.missingFiles) a
      = true)
    (hpm : a.buildConfig.packageName = none)
    (han : a.buildConfig.appName = none)
    (hver : a.buildConfig.version = none)
    (hmin : a.buildConfig.minSdk = none)
    (htgt : a.buildConfig.targetSdk = none) :
    apkOutputPath = "build/outputs/apk/release/app-release.apk"
    ∧ (∃ r es, (buildApk {} now d a).result = some r
      ∧ r.success = true
      ∧ r.apkPath = some apkOutputPath
      ∧ lookupContent (buildApk {} now d a).dir apkOutputPath =
          some (.archive es)
      ∧ r.apkSize = some (fileSize (.archive es))
      ∧ es.head? = some ("AndroidManifest.xml",
          .text (generateAndroidManifest a)))
    ∧ generateAndroidManifest a =
        apkManifestPart1 ++ ("com." ++ a.framework ++ ".app")
        ++ apkManifestPart2 ++ "1.0.0" ++ apkManifestPart3 ++ "21"
        ++ apkManifestPart4 ++ "33" ++ apkManifestPart5 ++ "Mobile App"
        ++ apkManifestPart6
    ∧ includes (generateAndroidManifest a) ("com." ++ a.framework ++ ".app")
        = true
    ∧ includes (generateAndroidManifest a) "android:label=\"Mobile App\""
        = true := by
  have hman : generateAndroidManifest a =
      apkManifestPart1 ++ ("com." ++ a.framework ++ ".app")
      ++ apkManifestPart2 ++ "1.0.0" ++ apkManifestPart3 ++ "21"
      ++ apkManifestPart4 ++ "33" ++ apkManifestPart5 ++ "Mobile App"
      ++ apkManifestPart6 := by
    unfold generateAndroidManifest orDefaultStr
    rw [hpm, han, hver, hmin, htgt]
    rfl
  rw [createMissingFilesOk_eq_cmfRun] at hs
  have h1 := buildApk_success_of_ok {} now d a
    (cmfRun a d a.missingFiles) (fun _ _ => rfl) rfl hv
    (createMissingFiles_false_eq a a.missingFiles d) hs
  have hdir : (createRealApk ({} : Faults) now (cmfRun a d a.missingFiles)
        a).1 =
      writeFile (ensureDirectory (cmfRun a d a.missingFiles)
        "build/outputs/apk/release") apkOutputPath
        (.archive (mainApkEntries false now
          (ensureDirectory (cmfRun a d a.missingFiles)
            "build/outputs/apk/release") a)) := rfl
  have hlook : lookupContent
      (writeFile (ensureDirectory (cmfRun a d a.missingFiles)
        "build/outputs/apk/release") apkOutputPath
        (.archive (mainApkEntries false now
          (ensureDirectory (cmfRun a d a.missingFiles)
            "build/outputs/apk/release") a))) apkOutputPath =
      some (.archive (mainApkEntries false now
        (ensureDirectory (cmfRun a d a.missingFiles)
          "build/outputs/apk/release") a)) := by
    rw [lookupContent_writeFile, if_pos rfl]
  have hsize : orDefault (getFileStats
      (createRealApk ({} : Faults) now (cmfRun a d a.missingFiles) a).1
      apkOutputPath) 0 =
      fileSize (.archive (mainApkEntries false now
        (ensureDirectory (cmfRun a d a.missingFiles)
          "build/outputs/apk/release") a)) := by
    rw [hdir]
    unfold getFileStats
    rw [hlook]
    exact orDefault_some_zero _
  refine ⟨rfl, ?_, hman, ?_, ?_⟩
  · rw [h1]
    dsimp only
    refine ⟨_, mainApkEntries false now
      (ensureDirectory (cmfRun a d a.missingFiles)
        "build/outputs/apk/release") a, rfl, rfl, rfl, ?_, ?_, rfl⟩
    · rw [hdir]
      exact hlook
    · dsimp only
      rw [hsize]
  · rw [hman]
    have hgrp : apkManifestPart1 ++ ("com." ++ a.framework ++ ".app")
        ++ apkManifestPart2 ++ "1.0.0" ++ apkManifestPart3 ++ "21"
        ++ apkManifestPart4 ++ "33" ++ apkManifestPart5 ++ "Mobile App"
        ++ apkManifestPart6 =
        apkManifestPart1 ++ ("com." ++ a.framework ++ ".app")
        ++ (apkManifestPart2 ++ "1.0.0" ++ apkManifestPart3 ++ "21"
        ++ apkManifestPart4 ++ "33" ++ apkManifestPart5 ++ "Mobile App"
        ++ apkManifestPart6) := by
      simp [String.append_assoc]
    rw [hgrp]
    exact includes_surround _ _ _ _ (includes_refl _)
  · rw [hman]
    have hgrp2 : apkManifestPart1 ++ ("com." ++ a.framework ++ ".app")
        ++ apkManifestPart2 ++ "1.0.0" ++ apkManifestPart3 ++ "21"
        ++ apkManifestPart4 ++ "33" ++ apkManifestPart5 ++ "Mobile App"
        ++ apkManifestPart6 =
        (apkManifestPart1 ++ ("com." ++ a.framework ++ ".app")
        ++ apkManifestPart2 ++ "1.0.0" ++ apkManifestPart3 ++ "21"
        ++ apkManifestPart4 ++ "33") ++
        (apkManifestPart5 ++ "Mobile App" ++ apkManifestPart6) := by
      simp [String.append_assoc]
    rw [hgrp2]
    exact includes_append_left _ _ _ (by decide)

/-- Witness for C7 on a concrete generic project with an empty
`buildConfig`. -/
theorem claim7_witness :
    apkOutputPath = "build/outputs/apk/release/app-release.apk"
    ∧ (∃ r es, (buildApk {} "T" demoDir genAnalysis).result = some r
      ∧ r.success = true
      ∧ r.apkPath = some apkOutputPath
      ∧ lookupContent (buildApk {} "T" demoDir genAnalysis).dir apkOutputPath =
          some (.archive es)
      ∧ r.apkSize = some (fileSize (.archive es))
      ∧ es.head? = some ("AndroidManifest.xml",
          .text (generateAndroidManifest genAnalysis)))
    ∧ generateAndroidManifest genAnalysis =
        apkManifestPart1 ++ ("com." ++ genAnalysis.framework ++ ".app")
        ++ apkManifestPart2 ++ "1.0.0" ++ apkManifestPart3 ++ "21"
        ++ apkManifestPart4 ++ "33" ++ apkManifestPart5 ++ "Mobile App"
        ++ apkManifestPart6
    ∧ includes (generateAndroidManifest genAnalysis)
        ("com." ++ genAnalysis.framework ++ ".app") = true
    ∧ includes (generateAndroidManifest genAnalysis)
        "android:label=\"Mobile App\"" = true :=
  claim7_success_artifact "T" demoDir genAnalysis (by decide) (by decide)
    rfl rfl rfl rfl rfl

/-- C8 (amended).  Provided the progress callback itself never throws,
`buildApk` always returns a `BuildResult` (never rejects), the last progress
invocation on every path carries 100, every returned failure has a non-empty
error list, and an error escaping the pipeline body (a scaffolding write or
the stats call throwing) is converted into a single `Build failed:` entry
with `success = false`. -/
theorem claim8_total_terminal_progress (faults : Faults) (now : String)
    (d : ProjectDir) (a : ProjectAnalysis)
    (hcb : ∀ p m, faults.cbThrows p m = false) :
    (buildApk faults now d a).result.isSome = true
    ∧ ((buildApk faults now d a).prog.map Prod.fst).getLast? = some 100
    ∧ (∀ r, (buildApk faults now d a).result = some r →
        r.success = true ∨ r.errors ≠ [])
    ∧ (validateBuildRequirements a = [] → faults.writeFails = true →
        a.missingFiles.any hasTemplate = true →
        (buildApk faults now d a).result =
          some { success := false, apkPath := none, apkSize := none,
                 errors := ["Build failed: write error"], logs := [] })
    ∧ (validateBuildRequirements a = [] → faults.writeFails = false →
        validateProjectStructure (createMissingFilesOk a d a.missingFiles) a
          = true →
        faults.statsFails = true →
        (buildApk faults now d a).result =
          some { success := false, apkPath := none, apkSize := none,
                 errors := ["Build failed: stats error"], logs := [] }) := by
  cases hve : (validateBuildRequirements a).isEmpty
  case false =>
    have hb := buildApk_validation_fail_eq faults now d a hcb hve
    have hne : validateBuildRequirements a ≠ [] := by
      intro hh
      rw [hh] at hve
      cases hve
    refine ⟨?_, ?_, ?_, ?_, ?_⟩
    · rw [hb]; rfl
    · rw [hb]; rfl
    · rw [hb]
      intro r hr
      cases hr
      exact Or.inr hne
    · intro h1; exact absurd h1 hne
    · intro h1; exact absurd h1 hne
  case true =>
    have hvee : validateBuildRequirements a = [] := List.isEmpty_iff.mp hve
    cases hwf : faults.writeFails
    case true =>
      cases hany : a.missingFiles.any hasTemplate
      case true =>
        obtain ⟨d2, herr0⟩ :=
          createMissingFiles_true_error a a.missingFiles d hany
        have herr : createMissingFiles faults.writeFails a d a.missingFiles =
            .error ("write error", d2) := by rw [hwf]; exact herr0
        have hb := buildApk_write_error_eq faults now d a d2 hcb hvee herr
        refine ⟨?_, ?_, ?_, ?_, ?_⟩
        · rw [hb]; rfl
        · rw [hb]; rfl
        · rw [hb]
          intro r hr
          cases hr
          exact Or.inr (by decide)
        · intro _ _ _; rw [hb]
        · intro _ h2 _ _
          exact absurd h2 (by decide)
      case false =>
        have hok : createMissingFiles faults.writeFails a d a.missingFiles =
            .ok (cmfRun a d a.missingFiles) :=
          createMissingFiles_noTemplate a a.missingFiles d hany _
        cases hsv : validateProjectStructure (cmfRun a d a.missingFiles) a
        case false =>
          have hb := buildApk_structure_fail_eq faults now d a _ hcb hvee hok
            hsv
          refine ⟨?_, ?_, ?_, ?_, ?_⟩
          · rw [hb]; rfl
          · rw [hb]; rfl
          · rw [hb]
            intro r hr
            cases hr
            exact Or.inr (by decide)
          · intro _ _ h3
            exact absurd h3 (by decide)
          · intro _ h2 _ _
            exact absurd h2 (by decide)
        case true =>
          cases hstv : faults.statsFails
          case true =>
            have hb := buildApk_stats_fail_eq faults now d a _ hcb hvee hok
              hsv hstv
            refine ⟨?_, ?_, ?_, ?_, ?_⟩
            · rw [hb]; rfl
            · rw [hb]; rfl
            · rw [hb]
              intro r hr
              cases hr
              exact Or.inr (by decide)
            · intro _ _ h3
              exact absurd h3 (by decide)
            · intro _ h2 _ _
              exact absurd h2 (by decide)
          case false =>
            have hb := buildApk_success_of_ok faults now d a _ hcb hstv hvee
              hok hsv
            refine ⟨?_, ?_, ?_, ?_, ?_⟩
            · rw [hb]; rfl
            · rw [hb]; rfl
            · rw [hb]
              intro r hr
              cases hr
              exact Or.inl rfl
            · intro _ _ h3
              exact absurd h3 (by decide)
            · intro _ h2 _ _
              exact absurd h2 (by decide)
    case false =>
      have hok : createMissingFiles faults.writeFails a d a.missingFiles =
          .ok (cmfRun a d a.missingFiles) := by
        rw [hwf]
        exact createMissingFiles_false_eq a a.missingFiles d
      cases hsv : validateProjectStructure (cmfRun a d a.missingFiles) a
      case false =>
        have hb := buildApk_structure_fail_eq faults now d a _ hcb hvee hok
          hsv
        refine ⟨?_, ?_, ?_, ?_, ?_⟩
        · rw [hb]; rfl
        · rw [hb]; rfl
        · rw [hb]
          intro r hr
          cases hr
          exact Or.inr (by decide)
        · intro _ h2 _
          exact absurd h2 (by decide)
        · intro _ _ h3 _
          rw [createMissingFilesOk_eq_cmfRun] at h3
          exact absurd (h3.symm.trans hsv) (by decide)
      case true =>
        cases hstv : faults.statsFails
        case true =>
          have hb := buildApk_stats_fail_eq faults now d a _ hcb hvee hok
            hsv hstv
          refine ⟨?_, ?_, ?_, ?_, ?_⟩
          · rw [hb]; rfl
          · rw [hb]; rfl
          · rw [hb]
            intro r hr
            cases hr
            exact Or.inr (by decide)
          · intro _ h2 _
            exact absurd h2 (by decide)
          · intro _ _ _ _
            rw [hb]
        case false =>
          have hb := buildApk_success_of_ok faults now d a _ hcb hstv hvee
            hok hsv
          refine ⟨?_, ?_, ?_, ?_, ?_⟩
          · rw [hb]; rfl
          · rw [hb]; rfl
          · rw [hb]
            intro r hr
            cases hr
            exact Or.inl rfl
          · intro _ h2 _
            exact absurd h2 (by decide)
          · intro _ _ _ h4
            exact absurd h4 (by decide)

/-- Witness for C8 at a concrete non-throwing invocation. -/
theorem claim8_witness :
    (buildApk {} "T" demoDir genAnalysis).result.isSome = true
    ∧ ((buildApk {} "T" demoDir genAnalysis).prog.map Prod.fst).getLast? =
        some 100
    ∧ (∀ r, (buildApk {} "T" demoDir genAnalysis).result = some r →
        r.success = true ∨ r.errors ≠ [])
    ∧ (validateBuildRequirements genAnalysis = [] →
        Faults.writeFails {} = true →
        genAnalysis.missingFiles.any hasTemplate = true →
        (buildApk {} "T" demoDir genAnalysis).result =
          some { success := false, apkPath := none, apkSize := none,
                 errors := ["Build failed: write error"], logs := [] })
    ∧ (validateBuildRequirements genAnalysis = [] →
        Faults.writeFails {} = false →
        validateProjectStructure
          (createMissingFilesOk genAnalysis demoDir genAnalysis.missingFiles)
          genAnalysis = true →
        Faults.statsFails {} = true →
        (buildApk {} "T" demoDir genAnalysis).result =
          some { success := false, apkPath := none, apkSize := none,
                 errors := ["Build failed: stats error"], logs := [] }) :=
  claim8_total_terminal_progress {} "T" demoDir genAnalysis (fun _ _ => rfl)

/-- Counterexample to C8 as stated: with a progress callback that itself
throws, the terminal `onProgress(100, ...)` inside the catch block throws as
well and the exception escapes `buildApk` — no `BuildResult` is returned. -/
theorem claim8_counterexample :
    (buildApk { cbThrows := fun _ _ => true } "T" demoDir
      genAnalysis).result = none := rfl

/-- C10.  `createMissingFiles` writes file content only for missing entries
whose path contains one of the four template filenames; every other entry
only has its parent directory ensured, and its checklist path stays exactly
as absent as before; paths outside the missing list are untouched. -/
theorem claim10_createMissingFiles_template_only (a : ProjectAnalysis)
    (d : ProjectDir) (es : List String) (e : String) (he : e ∈ es) :
    dirnameRel e ∈ (createMissingFilesOk a d es).dirs
    ∧ (hasTemplate e = true →
        ∃ c, lookupContent (createMissingFilesOk a d es) e =
          some (.plain (.text c)))
    ∧ (hasTemplate e = false →
        lookupContent (createMissingFilesOk a d es) e = lookupContent d e)
    ∧ (∀ p, p ∉ es →
        lookupContent (createMissingFilesOk a d es) p = lookupContent d p) := by
  rw [createMissingFilesOk_eq_cmfRun]
  refine ⟨cmfRun_dirname_mem a es d e he, ?_, ?_, ?_⟩
  · intro htmp
    exact cmfRun_lookup_template a es d e he htmp
  · intro htmp
    refine cmfRun_lookup_other a es d e (fun x hx hcontra => ?_)
    rcases hcontra with ⟨hx1, hx2⟩
    subst hx2
    rw [htmp] at hx1
    cases hx1
  · intro p hp
    refine cmfRun_lookup_other a es d p (fun x hx hcontra => ?_)
    rcases hcontra with ⟨_, hx2⟩
    subst hx2
    exact hp hx

/-- Witness for C10: in a flutter-style missing list the gradle descriptor is
written but `lib/main.dart` is not (its directory alone is created). -/
theorem claim10_witness :
    dirnameRel "lib/main.dart" ∈
      (createMissingFilesOk c4analysis ⟨[], [], []⟩
        ["lib/main.dart", "android/build.gradle"]).dirs
    ∧ (hasTemplate "lib/main.dart" = true →
        ∃ c, lookupContent (createMissingFilesOk c4analysis ⟨[], [], []⟩
          ["lib/main.dart", "android/build.gradle"]) "lib/main.dart" =
            some (.plain (.text c)))
    ∧ (hasTemplate "lib/main.dart" = false →
        lookupContent (createMissingFilesOk c4analysis ⟨[], [], []⟩
          ["lib/main.dart", "android/build.gradle"]) "lib/main.dart" =
            lookupContent ⟨[], [], []⟩ "lib/main.dart")
    ∧ (∀ p, p ∉ ["lib/main.dart", "android/build.gradle"] →
        lookupContent (createMissingFilesOk c4analysis ⟨[], [], []⟩
          ["lib/main.dart", "android/build.gradle"]) p =
            lookupContent ⟨[], [], []⟩ p) :=
  claim10_createMissingFiles_template_only c4analysis ⟨[], [], []⟩
    ["lib/main.dart", "android/build.gradle"] "lib/main.dart" (by decide)

/-- C1.  Classification follows the first-match precedence order: a package
descriptor together with a react-native marker yields the react-native
triple; a package descriptor without a marker makes the react-native rule
fall through to the later rules, and when none of the later conditions holds
the result is `unknown`. -/
theorem claim1_detectFramework_precedence (files : List String) :
    (files.any (fun f => includes f "package.json") = true →
      files.any rnMarker = true →
      detectFramework files = ⟨"react-native", "javascript", "hybrid"⟩)
    ∧ (files.any (fun f => includes f "package.json") = true →
      files.any rnMarker = false →
      detectFramework files = detectFrameworkRest files)
    ∧ (files.any rnMarker = false →
      files.any (fun f => includes f "pubspec.yaml") = false →
      files.any (fun f =>
        includes f "build.gradle" || includes f "AndroidManifest.xml") = false →
      files.any (fun f => includes f "config.xml" && includes f "www") = false →
      detectFramework files = ⟨"unknown", "unknown", "unknown"⟩) := by
  refine ⟨fun h1 h2 => ?_, fun h1 h2 => ?_, fun h1 h2 h3 h4 => ?_⟩
  · simp [detectFramework, h1, h2]
  · simp [detectFramework, h1, h2]
  · simp [detectFramework, detectFrameworkRest, h1, h2, h3, h4]

/-- C2.  `analyzeProject` never returns framework `unknown`: the result is
always one of the five defined tags, and when detection yields `unknown` the
returned analysis carries framework `generic-mobile` with an empty
missing-file list. -/
theorem claim2_analyzeProject_no_unknown (jd : String → Option (List String))
    (d : ProjectDir) :
    ((analyzeProject jd d).framework = "react-native"
      ∨ (analyzeProject jd d).framework = "flutter"
      ∨ (analyzeProject jd d).framework = "android"
      ∨ (analyzeProject jd d).framework = "cordova"
      ∨ (analyzeProject jd d).framework = "generic-mobile")
    ∧ (detectFramework d.files = ⟨"unknown", "unknown", "unknown"⟩ →
        (analyzeProject jd d).framework = "generic-mobile"
        ∧ (analyzeProject jd d).missingFiles = []) := by
  constructor
  · unfold analyzeProject
    dsimp only
    split
    case isTrue h =>
      rw [analyzeReactNative_framework]
      exact Or.inl h
    case isFalse h1 =>
      split
      case isTrue h =>
        rw [analyzeFlutter_framework]
        exact Or.inr (Or.inl h)
      case isFalse h2 =>
        split
        case isTrue h =>
          rw [analyzeAndroid_framework]
          exact Or.inr (Or.inr (Or.inl h))
        case isFalse h3 =>
          split
          case isTrue h =>
            rw [analyzeCordova_framework]
            exact Or.inr (Or.inr (Or.inr (Or.inl h)))
          case isFalse h4 =>
            exact Or.inr (Or.inr (Or.inr (Or.inr rfl)))
  · intro hdet
    unfold analyzeProject
    dsimp only
    rw [hdet]
    simp

/-- Witness for C2: a project containing a single unclassifiable file is
normalized to `generic-mobile` with no required files. -/
theorem claim2_witness :
    (analyzeProject (fun _ => none) ⟨["foo.txt"], [], []⟩).framework =
      "generic-mobile"
    ∧ (analyzeProject (fun _ => none) ⟨["foo.txt"], [], []⟩).missingFiles = [] :=
  (claim2_analyzeProject_no_unknown (fun _ => none)
    ⟨["foo.txt"], [], []⟩).2 (by decide)

/-- C9.  `hasValidStructure` holds exactly when the error list is empty; an
`unknown` detection appends the generic-mobile diagnostic, so the returned
analysis has `hasValidStructure = false` even though `generic-mobile` passes
both the requirement validator and the structure validator. -/
theorem claim9_hasValidStructure_iff_no_errors
    (jd : String → Option (List String)) (d : ProjectDir) :
    ((analyzeProject jd d).hasValidStructure = true ↔
      (analyzeProject jd d).errors = [])
    ∧ (detectFramework d.files = ⟨"unknown", "unknown", "unknown"⟩ →
        (analyzeProject jd d).errors =
          ["Framework not automatically detected - will use generic mobile project setup"]
        ∧ (analyzeProject jd d).hasValidStructure = false
        ∧ validateBuildRequirements (analyzeProject jd d) = []
        ∧ validateProjectStructure d (analyzeProject jd d) = true) := by
  constructor
  · have h : (analyzeProject jd d).hasValidStructure =
        (analyzeProject jd d).errors.isEmpty := rfl
    rw [h, List.isEmpty_iff]
  · intro hdet
    have hfw : (analyzeProject jd d).framework = "generic-mobile" :=
      ((claim2_analyzeProject_no_unknown jd d).2 hdet).1
    have herr : (analyzeProject jd d).errors =
        ["Framework not automatically detected - will use generic mobile project setup"] := by
      unfold analyzeProject
      dsimp only
      rw [hdet]
      simp
    refine ⟨herr, ?_, ?_, ?_⟩
    · have h : (analyzeProject jd d).hasValidStructure =
          (analyzeProject jd d).errors.isEmpty := rfl
      rw [h, herr]
      rfl
    · unfold validateBuildRequirements
      rw [hfw]
      simp
    · unfold validateProjectStructure getEssentialFiles
      rw [hfw]
      simp

/-- Witness for C9 on an unclassifiable project: the diagnostic is the sole
error and `hasValidStructure` is false while both validators pass. -/
theorem claim9_witness :
    (analyzeProject (fun _ => none) ⟨["readme.md"], [], []⟩).errors =
      ["Framework not automatically detected - will use generic mobile project setup"]
    ∧ (analyzeProject (fun _ => none) ⟨["readme.md"], [], []⟩).hasValidStructure
        = false
    ∧ validateBuildRequirements
        (analyzeProject (fun _ => none) ⟨["readme.md"], [], []⟩) = []
    ∧ validateProjectStructure ⟨["readme.md"], [], []⟩
        (analyzeProject (fun _ => none) ⟨["readme.md"], [], []⟩) = true :=
  (claim9_hasValidStructure_iff_no_errors (fun _ => none)
    ⟨["readme.md"], [], []⟩).2 (by decide)

/-- C6 (amended).  Config extraction never raises: on a gradle file with no
`targetSdkVersion`/`minSdkVersion` integer token, the analysis completes with
the documented defaults `targetSdk = 33` and `minSdk = 21` — but no
diagnostic is appended to `errors` (the error entry is reserved for a thrown
read/parse, not a failed token match). -/
theorem claim6_amended_extraction_defaults
    (jd : String → Option (List String)) (d : ProjectDir)
    (lang g : String)
    (hdet : detectFramework d.files = ⟨"android", lang, "native"⟩)
    (hread : readFile d "app/build.gradle" = some g)
    (h1 : extractGradleValue g "targetSdkVersion" = none)
    (h2 : extractGradleValue g "minSdkVersion" = none) :
    (analyzeProject jd d).buildConfig.targetSdk = some 33
    ∧ (analyzeProject jd d).buildConfig.minSdk = some 21
    ∧ (analyzeProject jd d).projectStats.targetSdk = some 33
    ∧ (analyzeProject jd d).projectStats.minSdk = some 21
    ∧ (analyzeProject jd d).errors = [] := by
  rw [analyzeProject_eq_android jd d lang "native" hdet]
  have h := analyzeAndroid_gradle_defaults d d.files
    (initAnalysis d "android" lang "native") g hread h1 h2
  exact ⟨h.1, h.2.1, h.2.2.1, h.2.2.2.1, h.2.2.2.2⟩

/-- Witness for C6: a concrete android project whose gradle file holds no SDK
token gets the defaults and an empty error list. -/
theorem claim6_witness :
    (analyzeProject (fun _ => none)
      ⟨["app/build.gradle"],
        [("app/build.gradle", .plain (.text "nothing here"))], []⟩).buildConfig.targetSdk = some 33
    ∧ (analyzeProject (fun _ => none)
      ⟨["app/build.gradle"],
        [("app/build.gradle", .plain (.text "nothing here"))], []⟩).buildConfig.minSdk = some 21
    ∧ (analyzeProject (fun _ => none)
      ⟨["app/build.gradle"],
        [("app/build.gradle", .plain (.text "nothing here"))], []⟩).projectStats.targetSdk = some 33
    ∧ (analyzeProject (fun _ => none)
      ⟨["app/build.gradle"],
        [("app/build.gradle", .plain (.text "nothing here"))], []⟩).projectStats.minSdk = some 21
    ∧ (analyzeProject (fun _ => none)
      ⟨["app/build.gradle"],
        [("app/build.gradle", .plain (.text "nothing here"))], []⟩).errors = [] :=
  claim6_amended_extraction_defaults (fun _ => none)
    ⟨["app/build.gradle"],
      [("app/build.gradle", .plain (.text "nothing here"))], []⟩
    "unknown" "nothing here" (by decide) (by decide) (by decide) (by decide)

/-- Counterexample to C6 as stated: on a gradle file with no SDK tokens the
defaults are applied but the error list stays empty — no diagnostic string is
appended for the failed extraction, contradicting the claimed diagnostic. -/
theorem claim6_counterexample :
    (analyzeProject (fun _ => none)
      ⟨["app/build.gradle"],
        [("app/build.gradle", .plain (.text "hello"))], []⟩).buildConfig.targetSdk = some 33
    ∧ (analyzeProject (fun _ => none)
      ⟨["app/build.gradle"],
        [("app/build.gradle", .plain (.text "hello"))], []⟩).buildConfig.minSdk = some 21
    ∧ (analyzeProject (fun _ => none)
      ⟨["app/build.gradle"],
        [("app/build.gradle", .plain (.text "hello"))], []⟩).errors = [] := by
  decide

/-- C4.  When requirement validation fails (react-native without a package
descriptor flag), `buildApk` returns `success = false` with the itemized
error list, before `createMissingFiles` runs: the directory state is
returned unchanged and the only progress signals are the start and the
terminal validation-failure one. -/
theorem claim4_validation_failure_halts (faults : Faults) (now : String)
    (d : ProjectDir) (a : ProjectAnalysis)
    (hcb : ∀ p m, faults.cbThrows p m = false)
    (hfw : a.framework = "react-native")
    (hpk : a.buildConfig.hasPackageJson = some false) :
    buildApk faults now d a =
      ⟨some { success := false, apkPath := none, apkSize := none,
              errors := ["React Native project missing package.json"],
              logs := [] },
       d,
       [(10, "Starting APK build process..."),
        (100, "Build validation failed - missing requirements")]⟩ := by
  unfold buildApk
  simp only [hcb]
  unfold validateBuildRequirements
  rw [hfw, hpk]
  simp

/-- Witness for C4 at a concrete project and analysis. -/
theorem claim4_witness :
    buildApk {} "2024-01-01T00:00:00Z" ⟨["index.js"], [], []⟩ c4analysis =
      ⟨some { success := false, apkPath := none, apkSize := none,
              errors := ["React Native project missing package.json"],
              logs := [] },
       ⟨["index.js"], [], []⟩,
       [(10, "Starting APK build process..."),
        (100, "Build validation failed - missing requirements")]⟩ :=
  claim4_validation_failure_halts {} "2024-01-01T00:00:00Z"
    ⟨["index.js"], [], []⟩ c4analysis (fun _ _ => rfl) rfl rfl

/-- Witness for C1 at concrete file lists: with both signals present the
result is react-native; with only the package descriptor the classifier
falls through all rules to `unknown`. -/
theorem claim1_witness :
    detectFramework ["package.json", "metro.config.js"] =
      ⟨"react-native", "javascript", "hybrid"⟩
    ∧ detectFramework ["package.json"] = ⟨"unknown", "unknown", "unknown"⟩ := by
  constructor
  · exact (claim1_detectFramework_precedence
      ["package.json", "metro.config.js"]).1 (by decide) (by decide)
  · exact (claim1_detectFramework_precedence ["package.json"]).2.2
      (by decide) (by decide) (by decide) (by decide)

end AppCore
